import Mathlib

/-!
Verification of the alchemy provider handlers (Cloudflare TunnelRoute and
WarpDeviceProfile, Stripe RateCard / Rate / v2 client, Neon Project,
Cloudflare RedirectRule) against the repository's natural-language
specification.  Each handler is shallowly embedded as a pure Lean function:
the provider's remote API is passed in explicitly (results of the create /
update / delete / list calls), JavaScript `async` control flow becomes
sequential `Except`-style flow, and every remote request the handler issues
is recorded in a trace list.  Machine integers are `Nat` (the JS values in
play are ids, HTTP statuses, counts and cent amounts, all non-negative and
far below 2^53, where JS numbers are exact).
-/

namespace Alchemy

/-- JS `String.prototype.includes`: substring test. -/
def strIncludes (s sub : String) : Bool :=
  decide (List.IsInfix sub.data s.data)

/-- JS truthiness of an optional string (`undefined` and `""` are falsy). -/
def strTruthy : Option String → Bool
  | none => false
  | some s => !s.isEmpty

/-- JS `a || b` on optional strings: `b` whenever `a` is falsy (`undefined`
or `""`). -/
def strOr (a b : Option String) : Option String :=
  if strTruthy a then a else b

/-- An HTTP `Response.ok`: status in the 200-299 range. -/
def statusOk (status : Nat) : Bool :=
  200 ≤ status && status < 300

/-- Resource phase, as exposed by the engine's execution context. -/
inductive Phase
  | create
  | update
  | delete
deriving DecidableEq, Repr

/-- What a handler invocation produces besides its request trace.
`destroyed` embeds `this.destroy()`; `replace` is the replace-mutator signal
(`this.replace()`), modelled from the spec's §4.3 forced-replace sequencing:
the engine aborts the in-place update and re-drives the handler through
`delete(old)` then `create(new)` (the engine itself is not under `src/`). -/
inductive ResourceResult (α : Type)
  | destroyed
  | replace
  | ok (out : α)
deriving DecidableEq, Repr

/-- Generic error shape thrown by the Cloudflare helpers: a message and an
optional HTTP status (mirrors `Error` / `CloudflareApiError`). -/
structure ApiError where
  message : String
  status : Option Nat := none
deriving DecidableEq, Repr

/-- `props.adopt ?? this.scope.adopt` — the per-call override falling back to
the scope flag, as written in the TunnelRoute, RateCard and WarpDeviceProfile
handlers. -/
def effectiveAdoptOr (propsAdopt : Option Bool) (scopeAdopt : Bool) : Bool :=
  propsAdopt.getD scopeAdopt

/-- `props.name ?? this.output?.name ?? this.scope.createPhysicalName(id)` —
the physical-name resolution of the NeonProject and WarpDeviceProfile
handlers.  `physical` stands for `this.scope.createPhysicalName(id)`, the
engine's deterministic name derived from app identity, scope path and the
logical id (its code is not under `src/`). -/
def resolvePhysicalName (propsName prevName : Option String) (physical : String) : String :=
  propsName.getD (prevName.getD physical)

/-! ## Cloudflare TunnelRoute (src/unnamed/part_007) -/

/-- Route data as returned by the Cloudflare API (`CloudflareRoute`). -/
structure CloudflareRoute where
  id : String
  network : String
  tunnel_id : String
  comment : Option String := none
  virtual_network_id : Option String := none
  created_at : String := ""
  deleted_at : Option String := none
deriving DecidableEq, Repr

/-- `result_info` of a Cloudflare list response. -/
structure ResultInfo where
  page : Nat
  per_page : Nat
  total_count : Nat
deriving DecidableEq, Repr

/-- One page of the route list endpoint. -/
structure RoutesPage where
  result : List CloudflareRoute
  result_info : ResultInfo
deriving DecidableEq, Repr

/-- JS truthiness of the `limit` option (`limit &&` — `undefined` and `0` are
falsy). -/
def limitTruthy : Option Nat → Bool
  | none => false
  | some l => l != 0

/-- The `while (hasMorePages)` loop of `listTunnelRoutes`.  `pages page 100`
models `api.get(".../routes?page=<page>&per_page=100")` (per_page is
hard-wired to 100 in the source).  `fuel` bounds the iterations; `none` is
fuel exhaustion (the source loop relies on the server's `result_info` to
terminate). -/
def listTunnelRoutesGo (pages : Nat → Nat → RoutesPage) (limit : Option Nat) :
    Nat → Nat → List CloudflareRoute → Option (List CloudflareRoute)
  | 0, _, _ => none
  | fuel + 1, page, routes =>
    let data := pages page 100
    let routes := routes ++ data.result
    if limitTruthy limit && decide (limit.getD 0 ≤ routes.length) then
      some (routes.take (limit.getD 0))
    else
      let ri := data.result_info
      if ri.page * ri.per_page < ri.total_count then
        listTunnelRoutesGo pages limit fuel (page + 1) routes
      else
        some routes

/-- `listTunnelRoutes(api, options)` — pagination starts at page 1 with an
empty accumulator. -/
def listTunnelRoutes (pages : Nat → Nat → RoutesPage) (limit : Option Nat)
    (fuel : Nat) : Option (List CloudflareRoute) :=
  listTunnelRoutesGo pages limit fuel 1 []

/-- A well-behaved route server holding the table `all`: page `n` (1-based)
returns the `n`-th chunk of `perPage` routes and echoes `page`, `per_page`
and the exact `total_count`. -/
def routesServer (all : List CloudflareRoute) : Nat → Nat → RoutesPage :=
  fun page perPage =>
    { result := (all.drop ((page - 1) * perPage)).take perPage
      result_info := { page := page, per_page := perPage, total_count := all.length } }

/-- What `listTunnelRoutes` should return against `routesServer all`. -/
def listExpected (all : List CloudflareRoute) : Option Nat → List CloudflareRoute
  | none => all
  | some l => if l = 0 then all else all.take l

/-- `findRouteByNetworkAndTunnel(api, network, tunnelId)`: list all routes
(no limit), then `find` the one whose `network` and `tunnel_id` match;
`match || null` becomes the inner `Option`.  The outer `Option` is the fuel
of the pagination loop. -/
def findRouteByNetworkAndTunnel (pages : Nat → Nat → RoutesPage) (fuel : Nat)
    (network tunnelId : String) : Option (Option CloudflareRoute) :=
  (listTunnelRoutes pages none fuel).map fun routes =>
    routes.find? fun route => route.network == network && route.tunnel_id == tunnelId

/-- The `findRouteByNetworkAndTunnel(api, network, tunnelId)` lookup as the
TunnelRoute adoption branch performs it, against the api's route table with
fuel that the pagination lemma `listTunnelRoutes_server` shows sufficient. -/
def findRouteOnServer (routes : List CloudflareRoute) (network tunnelId : String) :
    Option (Option CloudflareRoute) :=
  findRouteByNetworkAndTunnel (routesServer routes) (routes.length + 1) network tunnelId



/-- The `tunnel` prop: a tunnel id string or a `Tunnel` resource (of which
only the `tunnelId` field is consumed). -/
inductive TunnelRef
  | id (s : String)
  | resource (tunnelId : String)
deriving DecidableEq, Repr

/-- `typeof props.tunnel === "string" ? props.tunnel : props.tunnel.tunnelId` -/
def resolveTunnelId : TunnelRef → String
  | .id s => s
  | .resource tunnelId => tunnelId

/-- `TunnelRouteProps`. -/
structure TunnelRouteProps where
  network : String
  tunnel : TunnelRef
  comment : Option String := none
  virtualNetworkId : Option String := none
  adopt : Option Bool := none
  delete : Option Bool := none
  routeId : Option String := none
deriving DecidableEq, Repr

/-- The `TunnelRoute` output interface. -/
structure TunnelRoute where
  id : String
  network : String
  tunnelId : String
  comment : Option String
  virtualNetworkId : Option String
  createdAt : String
  deletedAt : Option String
deriving DecidableEq, Repr

/-- The final API-response-to-interface transform of the handler. -/
def TunnelRoute.ofRoute (routeData : CloudflareRoute) : TunnelRoute :=
  { id := routeData.id
    network := routeData.network
    tunnelId := routeData.tunnel_id
    comment := routeData.comment
    virtualNetworkId := routeData.virtual_network_id
    createdAt := routeData.created_at
    deletedAt := routeData.deleted_at }

/-- The body of `updateRoute`'s PATCH: each key is present iff the prop was
provided (`!== undefined`). -/
structure TunnelRoutePatch where
  comment : Option String
  virtual_network_id : Option String
deriving DecidableEq, Repr

/-- Requests the TunnelRoute handler can issue, in order. -/
inductive TRReq
  | createRoute (network tunnelId : String) (comment virtualNetworkId : Option String)
  | patchRoute (routeId : String) (patch : TunnelRoutePatch)
  | deleteRoute (routeId : String)
  | listRoutes
deriving DecidableEq, Repr

/-- The remote side of the TunnelRoute handler: the route table the list
endpoint paginates, and the outcomes of the create / update / delete calls. -/
structure TunnelRouteApi where
  routes : List CloudflareRoute
  createResult : Except ApiError CloudflareRoute
  update : String → TunnelRoutePatch → Except ApiError CloudflareRoute
  deleteStatus : String → Nat

/-- `deleteRoute`: a non-ok response other than 404 raises
(`handleApiError`); 404 is success. -/
def deleteRoute (status : Nat) : Except ApiError Unit :=
  if !statusOk status && status != 404 then
    .error { message := "delete route failed", status := some status }
  else
    .ok ()

/-- The conflict test of the TunnelRoute adoption branch:
`error.message.includes("already exists") || error.message.includes("duplicate")
|| error.status === 409`. -/
def isTunnelRouteConflict (e : ApiError) : Bool :=
  strIncludes e.message "already exists" || strIncludes e.message "duplicate" ||
    e.status == some 409

/-- `this.output?.network && this.output.network !== props.network` (the
truthiness of the previous network and its difference from the new one). -/
def tunnelRouteNetworkChanged (output : Option TunnelRoute) (network : String) : Bool :=
  match output with
  | some o => !o.network.isEmpty && o.network != network
  | none => false

/-- `this.output?.tunnelId && this.output.tunnelId !== tunnelId`. -/
def tunnelRouteTunnelChanged (output : Option TunnelRoute) (tunnelId : String) : Bool :=
  match output with
  | some o => !o.tunnelId.isEmpty && o.tunnelId != tunnelId
  | none => false

/-- The create path of the TunnelRoute handler: `createRoute` with the
conflict-adoption branch (`findRouteByNetworkAndTunnel`, then an optional
comment/virtual-network PATCH of the adopted route). -/
def tunnelRouteCreateStep (props : TunnelRouteProps) (adopt : Bool)
    (api : TunnelRouteApi) :
    Except ApiError (ResourceResult TunnelRoute) × List TRReq :=
  let tunnelId := resolveTunnelId props.tunnel
  let createReq : TRReq :=
    .createRoute props.network tunnelId props.comment props.virtualNetworkId
  match api.createResult with
  | .ok routeData => (.ok (.ok (.ofRoute routeData)), [createReq])
  | .error e =>
    if adopt && isTunnelRouteConflict e then
      match findRouteOnServer api.routes props.network tunnelId with
      | some (some existingRoute) =>
        if props.comment.isSome || props.virtualNetworkId.isSome then
          let patch : TunnelRoutePatch :=
            { comment := props.comment, virtual_network_id := props.virtualNetworkId }
          match api.update existingRoute.id patch with
          | .ok routeData =>
            (.ok (.ok (.ofRoute routeData)),
              [createReq, .listRoutes, .patchRoute existingRoute.id patch])
          | .error e2 =>
            (.error e2, [createReq, .listRoutes, .patchRoute existingRoute.id patch])
        else
          (.ok (.ok (.ofRoute existingRoute)), [createReq, .listRoutes])
      | some none =>
        (.error { message := "Failed to find existing route for network '" ++
            props.network ++ "' and tunnel '" ++ tunnelId ++ "' for adoption" },
          [createReq, .listRoutes])
      | none =>
        -- unreachable against `routesServer`: `listTunnelRoutes_server` shows
        -- fuel `api.routes.length + 1` always suffices
        (.error { message := "pagination fuel exhausted" }, [createReq, .listRoutes])
    else
      (.error e, [createReq])

/-- The `cloudflare::TunnelRoute` handler, embedded.  Returns the handler's
outcome and the trace of remote requests it issued.  `this.replace(true)` is
the replace signal (see `ResourceResult.replace`); the list endpoint of
`api` paginates `api.routes` in chunks of 100 (`routesServer`).  The source
computes `const routeId = props.routeId || this.output?.id` and guards the
delete and update paths with JS truthiness of that string (`routeId &&`),
embedded via `strOr`/`strTruthy`: an empty-string id skips the remote call;
the create path (with its adoption branch) is `tunnelRouteCreateStep`. -/
def tunnelRouteHandler (phase : Phase) (props : TunnelRouteProps)
    (output : Option TunnelRoute) (scopeAdopt : Bool) (api : TunnelRouteApi) :
    Except ApiError (ResourceResult TunnelRoute) × List TRReq :=
  let tunnelId := resolveTunnelId props.tunnel
  let routeId := strOr props.routeId (output.map (·.id))
  let adopt := effectiveAdoptOr props.adopt scopeAdopt
  match phase with
  | .delete =>
    if strTruthy routeId && props.delete != some false then
      let rid := routeId.getD ""
      match deleteRoute (api.deleteStatus rid) with
      | .ok _ => (.ok .destroyed, [.deleteRoute rid])
      | .error e => (.error e, [.deleteRoute rid])
    else
      (.ok .destroyed, [])
  | _ =>
    if phase == .update && tunnelRouteNetworkChanged output props.network then
      (.ok .replace, [])
    else if phase == .update && tunnelRouteTunnelChanged output tunnelId then
      (.ok .replace, [])
    else if phase == .update && strTruthy routeId then
      let rid := routeId.getD ""
      let patch : TunnelRoutePatch :=
        { comment := props.comment, virtual_network_id := props.virtualNetworkId }
      match api.update rid patch with
      | .ok routeData => (.ok (.ok (.ofRoute routeData)), [.patchRoute rid patch])
      | .error e => (.error e, [.patchRoute rid patch])
    else
      tunnelRouteCreateStep props adopt api

/-! ## Cloudflare WarpDeviceProfile (src/alchemy/src/cloudflare/warp-device-profile.ts) -/

/-- A JSON value, as assembled for Cloudflare request bodies. -/
inductive JVal
  | str (s : String)
  | num (n : Nat)
  | bool (b : Bool)
  | obj (fields : List (String × JVal))

/-- `ServiceModeV2`. -/
structure ServiceModeV2 where
  mode : String
  port : Option Nat := none
deriving DecidableEq, Repr

/-- `SplitTunnelEntry`. -/
structure SplitTunnelEntry where
  address : Option String := none
  host : Option String := none
  description : Option String := none
deriving DecidableEq, Repr

/-- `SplitTunnelConfig`: mode is `"include"` or `"exclude"`. -/
structure SplitTunnelConfig where
  mode : String
  entries : List SplitTunnelEntry
deriving DecidableEq, Repr

/-- `WarpDeviceProfileProps` (`matchExpr` embeds the `match` prop, a Lean
keyword). -/
structure WarpDeviceProfileProps where
  name : Option String := none
  description : Option String := none
  matchExpr : Option String := none
  precedence : Option Nat := none
  enabled : Option Bool := none
  serviceModeV2 : Option ServiceModeV2 := none
  disableAutoFallback : Option Bool := none
  allowModeSwitch : Option Bool := none
  switchLocked : Option Bool := none
  tunnelProtocol : Option String := none
  autoConnect : Option Nat := none
  allowedToLeave : Option Bool := none
  captivePortal : Option Nat := none
  supportUrl : Option String := none
  excludeOfficeIps : Option Bool := none
  lanAllowMinutes : Option Nat := none
  lanAllowSubnetSize : Option Nat := none
  splitTunnel : Option SplitTunnelConfig := none
  adopt : Option Bool := none
  delete : Option Bool := none
deriving DecidableEq, Repr

/-- The `WarpDeviceProfile` output interface. -/
structure WarpDeviceProfile where
  policyId : String
  name : String
  description : Option String
  matchExpr : Option String
  precedence : Option Nat
  enabled : Bool
  serviceModeV2 : Option ServiceModeV2
  disableAutoFallback : Option Bool
  allowModeSwitch : Option Bool
  switchLocked : Option Bool
  tunnelProtocol : Option String
  autoConnect : Option Nat
  allowedToLeave : Option Bool
  captivePortal : Option Nat
  supportUrl : Option String
  excludeOfficeIps : Option Bool
  lanAllowMinutes : Option Nat
  lanAllowSubnetSize : Option Nat
  splitTunnel : Option SplitTunnelConfig
  createdAt : Nat
  modifiedAt : Nat
deriving DecidableEq, Repr

/-- A helper for the `if (x !== undefined) requestBody.k = v` lines of
`buildRequestBody`: the key is present exactly when the prop is defined. -/
def jfield (key : String) (v : Option JVal) : List (String × JVal) :=
  match v with
  | some jv => [(key, jv)]
  | none => []

/-- `buildRequestBody(props & {name})`, field for field in source order.
`service_mode_v2.port` follows the source's truthiness spread
(`...(props.serviceModeV2.port && { port })`), so a port of 0 is dropped. -/
def buildRequestBody (props : WarpDeviceProfileProps) (name : String) :
    List (String × JVal) :=
  [("name", .str name)]
    ++ jfield "description" (props.description.map .str)
    ++ jfield "match" (props.matchExpr.map .str)
    ++ jfield "precedence" (props.precedence.map .num)
    ++ jfield "enabled" (props.enabled.map .bool)
    ++ (match props.serviceModeV2 with
        | some sm =>
          [("service_mode_v2", .obj ([("mode", .str sm.mode)]
            ++ (match sm.port with
                | some p => if p = 0 then [] else [("port", .num p)]
                | none => [])))]
        | none => [])
    ++ jfield "disable_auto_fallback" (props.disableAutoFallback.map .bool)
    ++ jfield "allow_mode_switch" (props.allowModeSwitch.map .bool)
    ++ jfield "switch_locked" (props.switchLocked.map .bool)
    ++ jfield "tunnel_protocol" (props.tunnelProtocol.map .str)
    ++ jfield "auto_connect" (props.autoConnect.map .num)
    ++ jfield "allowed_to_leave" (props.allowedToLeave.map .bool)
    ++ jfield "captive_portal" (props.captivePortal.map .num)
    ++ jfield "support_url" (props.supportUrl.map .str)
    ++ jfield "exclude_office_ips" (props.excludeOfficeIps.map .bool)
    ++ jfield "lan_allow_minutes" (props.lanAllowMinutes.map .num)
    ++ jfield "lan_allow_subnet_size" (props.lanAllowSubnetSize.map .num)

/-- `CloudflarePolicyResponse` (the fields the handler consumes). -/
structure CloudflarePolicyResponse where
  id : String
  policy_id : Option String := none
deriving DecidableEq, Repr

/-- `CloudflarePolicyListItem` (the fields `findPolicyByName` consumes). -/
structure CloudflarePolicyListItem where
  id : String
  policy_id : Option String := none
  name : String
deriving DecidableEq, Repr

/-- One split-tunnel route of the PUT body: keys present iff the entry's
field is truthy (`...(entry.address && { address })` — empty strings are
dropped). -/
def splitTunnelRoute (entry : SplitTunnelEntry) : List (String × String) :=
  (match entry.address with
    | some a => if a.isEmpty then [] else [("address", a)]
    | none => [])
    ++ (match entry.host with
        | some h => if h.isEmpty then [] else [("host", h)]
        | none => [])
    ++ (match entry.description with
        | some d => if d.isEmpty then [] else [("description", d)]
        | none => [])

/-- Requests the WarpDeviceProfile handler can issue. -/
inductive WReq
  | createPolicy (body : List (String × JVal))
  | patchPolicy (policyId : String) (body : List (String × JVal))
  | deletePolicy (policyId : String)
  | listPolicies
  | putSplitTunnel (policyId : String) (mode : String)
      (routes : List (List (String × String)))

/-- The remote side of the WarpDeviceProfile handler. -/
structure WarpApi where
  policies : List CloudflarePolicyListItem
  createResult : Except ApiError CloudflarePolicyResponse
  updateStatus : Nat
  deleteStatus : String → Nat
  putSplitTunnelStatus : Nat

/-- `deletePolicy`: non-ok other than 404 raises; 404 is success. -/
def deletePolicy (status : Nat) : Except ApiError Unit :=
  if !statusOk status && status != 404 then
    .error { message := "delete warp_device_profile failed", status := some status }
  else
    .ok ()

/-- `findPolicyByName`: find by `name` in the list response, then
`policy_id ?? id`. -/
def findPolicyByName (policies : List CloudflarePolicyListItem) (name : String) :
    Option String :=
  (policies.find? fun p => p.name == name).map fun p => p.policy_id.getD p.id

/-- The conflict test of the WarpDeviceProfile adoption branch:
`CloudflareApiError` with status 400 or 409 whose message mentions
"already exists", "duplicate" or "precedence must be unique". -/
def isWarpProfileConflict (e : ApiError) : Bool :=
  (e.status == some 400 || e.status == some 409) &&
    (strIncludes e.message "already exists" || strIncludes e.message "duplicate" ||
      strIncludes e.message "precedence must be unique")

/-- `updateSplitTunnel`: PUT the mapped routes to the include or exclude
endpoint; a non-ok response raises. -/
def updateSplitTunnel (status : Nat) (_config : SplitTunnelConfig) : Except ApiError Unit :=
  if !statusOk status then
    .error { message := "update split tunnel failed", status := some status }
  else
    .ok ()

/-- The output record the handler assembles on success. -/
def warpProfileOut (props : WarpDeviceProfileProps) (name : String)
    (policyId : String) (createdAt now : Nat) : WarpDeviceProfile :=
  { policyId := policyId
    name := name
    description := props.description
    matchExpr := props.matchExpr
    precedence := props.precedence
    enabled := props.enabled.getD true
    serviceModeV2 := props.serviceModeV2
    disableAutoFallback := props.disableAutoFallback
    allowModeSwitch := props.allowModeSwitch
    switchLocked := props.switchLocked
    tunnelProtocol := props.tunnelProtocol
    autoConnect := props.autoConnect
    allowedToLeave := props.allowedToLeave
    captivePortal := props.captivePortal
    supportUrl := props.supportUrl
    excludeOfficeIps := props.excludeOfficeIps
    lanAllowMinutes := props.lanAllowMinutes
    lanAllowSubnetSize := props.lanAllowSubnetSize
    splitTunnel := props.splitTunnel
    createdAt := createdAt
    modifiedAt := now }

/-- The split-tunnel step shared by the create and update paths: when
`props.splitTunnel` is provided, PUT it (recording the request), else do
nothing. -/
def warpSplitTunnelStep (props : WarpDeviceProfileProps) (api : WarpApi)
    (policyId : String) : Except ApiError Unit × List WReq :=
  match props.splitTunnel with
  | some config =>
    (updateSplitTunnel api.putSplitTunnelStatus config,
      [.putSplitTunnel policyId config.mode (config.entries.map splitTunnelRoute)])
  | none => (.ok (), [])

/-- The non-replace continuation of the WarpDeviceProfile handler: the
in-place PATCH path, or the create path with its adoption branch. -/
def warpReconcile (phase : Phase) (props : WarpDeviceProfileProps)
    (output : Option WarpDeviceProfile) (adopt : Bool) (name : String)
    (api : WarpApi) (now : Nat) :
    Except ApiError (ResourceResult WarpDeviceProfile) × List WReq :=
  let createdAt := (output.map (·.createdAt)).getD now
  if phase == .update && (output.map (·.policyId)).any (!·.isEmpty) then
    let policyId := ((output.map (·.policyId))).getD ""
    let body := buildRequestBody props name
    if !statusOk api.updateStatus then
      let err : ApiError :=
        { message := "update warp_device_profile failed", status := some api.updateStatus }
      (.error err, [.patchPolicy policyId body])
    else
      match warpSplitTunnelStep props api policyId with
      | (.ok _, reqs) =>
        (.ok (.ok (warpProfileOut props name policyId createdAt now)),
          [.patchPolicy policyId body] ++ reqs)
      | (.error e, reqs) => (.error e, [.patchPolicy policyId body] ++ reqs)
  else
    let body := buildRequestBody props name
    match api.createResult with
    | .ok result =>
      let policyId := result.policy_id.getD result.id
      match warpSplitTunnelStep props api policyId with
      | (.ok _, reqs) =>
        (.ok (.ok (warpProfileOut props name policyId now now)),
          [.createPolicy body] ++ reqs)
      | (.error e, reqs) => (.error e, [.createPolicy body] ++ reqs)
    | .error e =>
      if adopt && isWarpProfileConflict e then
        match findPolicyByName api.policies name with
        | some policyId =>
          match warpSplitTunnelStep props api policyId with
          | (.ok _, reqs) =>
            (.ok (.ok (warpProfileOut props name policyId createdAt now)),
              [.createPolicy body, .listPolicies] ++ reqs)
          | (.error e2, reqs) =>
            (.error e2, [.createPolicy body, .listPolicies] ++ reqs)
        | none =>
          (.error { message := "Failed to find existing WARP device profile '" ++
              name ++ "' for adoption" }, [.createPolicy body, .listPolicies])
      else
        (.error e, [.createPolicy body])

/-- The `cloudflare::WarpDeviceProfile` handler, embedded.  `physical` is
`this.scope.createPhysicalName(id)` and `now` is `Date.now()` (both supplied
by the environment); the non-replace continuation is `warpReconcile`. -/
def warpDeviceProfileHandler (phase : Phase) (props : WarpDeviceProfileProps)
    (output : Option WarpDeviceProfile) (scopeAdopt : Bool) (api : WarpApi)
    (physical : String) (now : Nat) :
    Except ApiError (ResourceResult WarpDeviceProfile) × List WReq :=
  let name := resolvePhysicalName props.name (output.map (·.name)) physical
  let adopt := effectiveAdoptOr props.adopt scopeAdopt
  match phase with
  | .delete =>
    match output with
    | some o =>
      if !o.policyId.isEmpty && props.delete != some false then
        match deletePolicy (api.deleteStatus o.policyId) with
        | .ok _ => (.ok .destroyed, [.deletePolicy o.policyId])
        | .error e => (.error e, [.deletePolicy o.policyId])
      else
        (.ok .destroyed, [])
    | none => (.ok .destroyed, [])
  | _ =>
    if phase == .update && output.map (·.name) != some name then
      (.ok .replace, [])
    else
      warpReconcile phase props output adopt name api now

/-! ## Stripe v2 client (src/alchemy/src/stripe/v2-client.ts) -/

/-- The error shape the Stripe v2 helpers inspect (`errType` embeds the
`type` field, a Lean keyword). -/
structure StripeError where
  message : String := ""
  status : Option Nat := none
  statusCode : Option Nat := none
  code : Option String := none
  errType : Option String := none
deriving DecidableEq, Repr

/-- `isStripeV2RetryableError`. -/
def isStripeV2RetryableError (e : StripeError) : Bool :=
  e.status == some 429 || e.statusCode == some 429 ||
    e.code == some "rate_limit" || e.errType == some "rate_limit_error"

/-- `isStripeV2ConflictError`. -/
def isStripeV2ConflictError (e : StripeError) : Bool :=
  e.status == some 409 || e.statusCode == some 409

/-- `handleStripeV2DeleteError`: `resource_missing` / 404 is swallowed
(already deleted), anything else is re-thrown. -/
def handleStripeV2DeleteError (e : StripeError) : Except StripeError Unit :=
  if e.code == some "resource_missing" || e.status == some 404 ||
      e.statusCode == some 404 then
    .ok ()
  else
    .error e

/-- Modelled from the spec: `withExponentialBackoff` lives in
`src/alchemy/src/util/retry.ts`, which is not under `src/`; the spec states
that retry/backoff against transient provider errors is the handler's own
responsibility, and the v2 client invokes the combinator with the
`isStripeV2RetryableError` predicate, 5 attempts and a 1000 ms initial
delay.  `attempts k` is the outcome of the (k+1)-th try; the combinator
returns the first success, retries an error only while the predicate holds
and attempts remain, and also returns the list of backoff delays slept
(initialDelayMs * 2^k before retry k+1). -/
def withExponentialBackoff (attempts : Nat → Except StripeError α)
    (isRetryable : StripeError → Bool) (initialDelayMs : Nat) :
    Nat → Nat → Except StripeError α × List Nat
  | 0, k => (attempts k, [])
  | 1, k => (attempts k, [])
  | remaining + 2, k =>
    match attempts k with
    | .ok a => (.ok a, [])
    | .error e =>
      if isRetryable e then
        let next :=
          withExponentialBackoff attempts isRetryable initialDelayMs (remaining + 1) (k + 1)
        (next.1, initialDelayMs * 2 ^ k :: next.2)
      else
        (.error e, [])

/-- A Stripe v2 request as issued by `createStripeV2Client().request`:
`withExponentialBackoff(fn, isStripeV2RetryableError, 5, 1000)`. -/
def stripeV2Request (attempts : Nat → Except StripeError α) :
    Except StripeError α × List Nat :=
  withExponentialBackoff attempts isStripeV2RetryableError 1000 5 0

/-! ## Stripe RateCard (src/alchemy/src/stripe/rate-card.ts) -/

/-- `V2RateCard` (metadata as a key-value list). -/
structure V2RateCard where
  id : String
  display_name : String
  currency : String
  service_interval : String
  service_interval_count : Nat
  tax_behavior : String
  lookup_key : Option String := none
  metadata : Option (List (String × String)) := none
  created : Nat := 0
  updated : Nat := 0
  livemode : Bool := false
deriving DecidableEq, Repr

/-- `RateCardProps`. -/
structure RateCardProps where
  displayName : String
  currency : String
  serviceInterval : Option String := none
  serviceIntervalCount : Option Nat := none
  taxBehavior : Option String := none
  lookupKey : Option String := none
  metadata : Option (List (String × String)) := none
  adopt : Option Bool := none
deriving DecidableEq, Repr

/-- The `RateCard` output interface. -/
structure RateCard where
  id : String
  displayName : String
  currency : String
  serviceInterval : String
  serviceIntervalCount : Nat
  taxBehavior : String
  lookupKey : Option String
  metadata : Option (List (String × String))
  createdAt : Nat
  updatedAt : Nat
  livemode : Bool
deriving DecidableEq, Repr

/-- `mapV2RateCardToOutput`. -/
def mapV2RateCardToOutput (rateCard : V2RateCard) : RateCard :=
  { id := rateCard.id
    displayName := rateCard.display_name
    currency := rateCard.currency
    serviceInterval := rateCard.service_interval
    serviceIntervalCount := rateCard.service_interval_count
    taxBehavior := rateCard.tax_behavior
    lookupKey := rateCard.lookup_key
    metadata := rateCard.metadata
    createdAt := rateCard.created
    updatedAt := rateCard.updated
    livemode := rateCard.livemode }

/-- `V2RateCardCreateParams` as filled in by the handler. -/
structure V2RateCardCreateParams where
  display_name : String
  currency : String
  service_interval : String
  service_interval_count : Nat
  tax_behavior : String
  lookup_key : Option String := none
  metadata : Option (List (String × String)) := none
deriving DecidableEq, Repr

/-- `V2RateCardUpdateParams`. -/
structure V2RateCardUpdateParams where
  display_name : String
  lookup_key : Option String := none
  metadata : Option (List (String × String)) := none
deriving DecidableEq, Repr

/-- Requests the RateCard handler can issue. -/
inductive SReq
  | createRateCard (params : V2RateCardCreateParams)
  | updateRateCard (id : String) (params : V2RateCardUpdateParams)
  | delRateCard (id : String)
  | listRateCards
deriving DecidableEq, Repr

/-- The remote side of the RateCard handler. -/
structure StripeRateCardApi where
  createResult : Except StripeError V2RateCard
  update : String → V2RateCardUpdateParams → Except StripeError V2RateCard
  delResult : String → Except StripeError Unit
  listResult : List V2RateCard

/-- The create params of the RateCard handler (`client.rateCards.create`
call), with the source's `serviceInterval`/`serviceIntervalCount`/
`taxBehavior` defaults applied. -/
def rateCardCreateParams (props : RateCardProps) : V2RateCardCreateParams :=
  { display_name := props.displayName, currency := props.currency,
    service_interval := props.serviceInterval.getD "month",
    service_interval_count := props.serviceIntervalCount.getD 1,
    tax_behavior := props.taxBehavior.getD "exclusive",
    lookup_key := props.lookupKey, metadata := props.metadata }

/-- The `stripe::RateCard` handler, embedded. -/
def rateCardHandler (phase : Phase) (props : RateCardProps)
    (output : Option RateCard) (scopeAdopt : Bool) (api : StripeRateCardApi) :
    Except StripeError (ResourceResult RateCard) × List SReq :=
  let adopt := effectiveAdoptOr props.adopt scopeAdopt
  match phase with
  | .delete =>
    match output with
    | some o =>
      if !o.id.isEmpty then
        match api.delResult o.id with
        | .ok _ => (.ok .destroyed, [.delRateCard o.id])
        | .error e =>
          if e.status == some 404 || e.statusCode == some 404 then
            -- deletion not supported: logged and ignored
            (.ok .destroyed, [.delRateCard o.id])
          else
            match handleStripeV2DeleteError e with
            | .ok _ => (.ok .destroyed, [.delRateCard o.id])
            | .error e2 => (.error e2, [.delRateCard o.id])
      else
        (.ok .destroyed, [])
    | none => (.ok .destroyed, [])
  | _ =>
    if phase == .update && (output.map (·.id)).any (!·.isEmpty) then
      let oid := (output.map (·.id)).getD ""
      let params : V2RateCardUpdateParams :=
        { display_name := props.displayName, lookup_key := props.lookupKey,
          metadata := props.metadata }
      match api.update oid params with
      | .ok rateCard =>
        (.ok (.ok (mapV2RateCardToOutput rateCard)), [.updateRateCard oid params])
      | .error e => (.error e, [.updateRateCard oid params])
    else
      let createParams := rateCardCreateParams props
      match api.createResult with
      | .ok rateCard =>
        (.ok (.ok (mapV2RateCardToOutput rateCard)), [.createRateCard createParams])
      | .error e =>
        if isStripeV2ConflictError e && adopt && strTruthy props.lookupKey then
          match api.listResult.find? fun rc => rc.lookup_key == props.lookupKey with
          | some existingRateCard =>
            let params : V2RateCardUpdateParams :=
              { display_name := props.displayName, metadata := props.metadata }
            match api.update existingRateCard.id params with
            | .ok rateCard =>
              (.ok (.ok (mapV2RateCardToOutput rateCard)),
                [.createRateCard createParams, .listRateCards,
                  .updateRateCard existingRateCard.id params])
            | .error e2 =>
              (.error e2,
                [.createRateCard createParams, .listRateCards,
                  .updateRateCard existingRateCard.id params])
          | none => (.error e, [.createRateCard createParams, .listRateCards])
        else
          (.error e, [.createRateCard createParams])

/-! ## Decimal strings: JS `String(n)` and `parseInt(s, 10)` -/

/-- JS `String(n)` for a non-negative integer: the base-10 digit string. -/
def jsStringOfNat (n : Nat) : String :=
  if n = 0 then "0" else ⟨((Nat.digits 10 n).map Nat.digitChar).reverse⟩

/-- The numeric value of a decimal digit character. -/
def charDigitVal (c : Char) : Nat :=
  c.toNat - 48

/-- JS `parseInt(s, 10)` restricted to its numeric results: the value of the
longest leading run of decimal digits, `none` when there is none (JS then
yields NaN). -/
def jsParseInt (s : String) : Option Nat :=
  let ds := s.data.takeWhile Char.isDigit
  if ds.isEmpty then none
  else some (Nat.ofDigits 10 ((ds.map charDigitVal).reverse))


/-! ## Stripe Rate (the Rate resource of src/alchemy/src/util/find-open-port.ts) -/

/-- A tier's `upTo`: a number or `"inf"`. -/
inductive UpTo
  | num (n : Nat)
  | inf
deriving DecidableEq, Repr

/-- `RateTier` (the prop/output form).  Amounts are JS numbers used as
integer cents; they are modelled as `Nat` (the claims quantify over
non-negative integers). -/
structure RateTier where
  upTo : UpTo
  unitAmount : Option Nat := none
  flatAmount : Option Nat := none
deriving DecidableEq, Repr

/-- `up_to` on the wire: a number, the string `"inf"` (request form), or
`null` (response form). -/
inductive ApiUpTo
  | num (n : Nat)
  | infStr
  | null
deriving DecidableEq, Repr

/-- `V2RateTier` (wire form; amounts are decimal strings). -/
structure V2RateTier where
  up_to : ApiUpTo
  unit_amount : Option String := none
  flat_amount : Option String := none
deriving DecidableEq, Repr

/-- The tier transform of the Rate handler (its `apiTiers`): amounts are
stringified with `String(...)` when defined, `upTo` passes through. -/
def toApiTier (tier : RateTier) : V2RateTier :=
  { up_to := match tier.upTo with | .num n => .num n | .inf => .infStr
    unit_amount := tier.unitAmount.map jsStringOfNat
    flat_amount := tier.flatAmount.map jsStringOfNat }

/-- `tier.unit_amount ? parseInt(tier.unit_amount, 10) : undefined`:
`undefined` and `""` are falsy. -/
def truthyParseInt : Option String → Option Nat
  | none => none
  | some s => if s = "" then none else jsParseInt s

/-- `mapV2TierToOutput`: `up_to === null ? "inf" : up_to` (the request
string `"inf"` passes through unchanged, which is the output `"inf"` too),
amounts parsed back with `parseInt` under a truthiness guard. -/
def mapV2TierToOutput (tier : V2RateTier) : RateTier :=
  { upTo := match tier.up_to with | .null => .inf | .infStr => .inf | .num n => .num n
    unitAmount := truthyParseInt tier.unit_amount
    flatAmount := truthyParseInt tier.flat_amount }

/-- `rateCard: string | RateCard` (resp. `meteredItem`): a raw id or a
resource of which the handler reads `.id`. -/
inductive StripeRef
  | id (s : String)
  | resource (id : String)
deriving DecidableEq, Repr

/-- `typeof x === "string" ? x : x.id` -/
def resolveStripeRef : StripeRef → String
  | .id s => s
  | .resource i => i

/-- `RateProps`. -/
structure RateProps where
  rateCard : StripeRef
  meteredItem : StripeRef
  unitAmount : Option Nat := none
  tiers : Option (List RateTier) := none
  tiersMode : Option String := none
  metadata : Option (List (String × String)) := none
deriving DecidableEq, Repr

/-- `V2Rate`. -/
structure V2Rate where
  id : String
  rate_card : String
  metered_item : String
  unit_amount : Option String := none
  tiers : Option (List V2RateTier) := none
  tiers_mode : Option String := none
  metadata : Option (List (String × String)) := none
  created : Nat := 0
  updated : Nat := 0
  livemode : Bool := false
deriving DecidableEq, Repr

/-- The `Rate` output interface. -/
structure Rate where
  id : String
  rateCard : String
  meteredItem : String
  unitAmount : Option String
  tiers : Option (List RateTier)
  tiersMode : Option String
  metadata : Option (List (String × String))
  createdAt : Nat
  updatedAt : Nat
  livemode : Bool
deriving DecidableEq, Repr

/-- `mapV2RateToOutput`. -/
def mapV2RateToOutput (rate : V2Rate) : Rate :=
  { id := rate.id
    rateCard := rate.rate_card
    meteredItem := rate.metered_item
    unitAmount := rate.unit_amount
    tiers := rate.tiers.map (·.map mapV2TierToOutput)
    tiersMode := rate.tiers_mode
    metadata := rate.metadata
    createdAt := rate.created
    updatedAt := rate.updated
    livemode := rate.livemode }

/-- `V2RateCreateParams` as filled in by the handler. -/
structure V2RateCreateParams where
  metered_item : String
  unit_amount : Option String := none
  tiers : Option (List V2RateTier) := none
  tiers_mode : Option String := none
  metadata : Option (List (String × String)) := none
deriving DecidableEq, Repr

/-- `V2RateUpdateParams` as filled in by the handler. -/
structure V2RateUpdateParams where
  unit_amount : Option String := none
  tiers : Option (List V2RateTier) := none
  tiers_mode : Option String := none
  metadata : Option (List (String × String)) := none
deriving DecidableEq, Repr

/-- The Rate handler's errors: a validation `throw new Error(...)` or a
Stripe API failure. -/
inductive RateError
  | validation (message : String)
  | api (e : StripeError)
deriving DecidableEq, Repr

/-- Requests the Rate handler can issue. -/
inductive RateReq
  | createRate (rateCardId : String) (params : V2RateCreateParams)
  | updateRate (rateCardId rateId : String) (params : V2RateUpdateParams)
  | delRate (rateCardId rateId : String)
deriving DecidableEq, Repr

/-- The remote side of the Rate handler. -/
structure StripeRateApi where
  create : String → V2RateCreateParams → Except StripeError V2Rate
  update : String → String → V2RateUpdateParams → Except StripeError V2Rate
  delResult : String → String → Except StripeError Unit

/-- The `stripe::Rate` handler, embedded.  Validation (`Cannot specify both
...` / `Either ... is required`) happens after client construction but
before any Stripe request. -/
def rateHandler (phase : Phase) (props : RateProps) (output : Option Rate)
    (api : StripeRateApi) : Except RateError (ResourceResult Rate) × List RateReq :=
  let rateCardId := resolveStripeRef props.rateCard
  let meteredItemId := resolveStripeRef props.meteredItem
  match phase with
  | .delete =>
    match output with
    | some o =>
      if !o.id.isEmpty && !o.rateCard.isEmpty then
        match api.delResult o.rateCard o.id with
        | .ok _ => (.ok .destroyed, [.delRate o.rateCard o.id])
        | .error e =>
          if e.status == some 404 || e.statusCode == some 404 then
            (.ok .destroyed, [.delRate o.rateCard o.id])
          else
            match handleStripeV2DeleteError e with
            | .ok _ => (.ok .destroyed, [.delRate o.rateCard o.id])
            | .error e2 => (.error (.api e2), [.delRate o.rateCard o.id])
      else
        (.ok .destroyed, [])
    | none => (.ok .destroyed, [])
  | _ =>
    let hasTiers := (props.tiers.map fun ts => decide (0 < ts.length)).getD false
    let hasUnitAmount := props.unitAmount.isSome
    if hasTiers && hasUnitAmount then
      (.error (.validation "Cannot specify both unitAmount and tiers. Use one or the other."), [])
    else if !hasTiers && !hasUnitAmount then
      (.error (.validation "Either unitAmount or tiers is required"), [])
    else
      let apiTiers := props.tiers.map (·.map toApiTier)
      if phase == .update && (output.map (·.id)).any (!·.isEmpty) then
        let oid := (output.map (·.id)).getD ""
        let orc := (output.map (·.rateCard)).getD ""
        let params : V2RateUpdateParams :=
          { unit_amount := props.unitAmount.map jsStringOfNat, tiers := apiTiers,
            tiers_mode := props.tiersMode, metadata := props.metadata }
        match api.update orc oid params with
        | .ok rate => (.ok (.ok (mapV2RateToOutput rate)), [.updateRate orc oid params])
        | .error e => (.error (.api e), [.updateRate orc oid params])
      else
        let params : V2RateCreateParams :=
          { metered_item := meteredItemId,
            unit_amount := props.unitAmount.map jsStringOfNat, tiers := apiTiers,
            tiers_mode := props.tiersMode, metadata := props.metadata }
        match api.create rateCardId params with
        | .ok rate => (.ok (.ok (mapV2RateToOutput rate)), [.createRate rateCardId params])
        | .error e => (.error (.api e), [.createRate rateCardId params])

/-! ## Cloudflare RedirectRule (src/alchemy/src/cloudflare/redirect-rule.ts) -/

/-- `zone: string | Zone` — a zone id, a domain name, or a Zone resource. -/
inductive ZoneRef
  | name (s : String)
  | resource (id : String)
deriving DecidableEq, Repr

/-- `RedirectRuleProps` (the fields the handler consumes). -/
structure RedirectRuleProps where
  zone : ZoneRef
  description : Option String := none
  requestUrl : Option String := none
  expression : Option String := none
  targetUrl : String := ""
  statusCode : Option Nat := none
  preserveQueryString : Option Bool := none
deriving DecidableEq, Repr

/-- The `RedirectRule` output fields the handler reads back. -/
structure RedirectRuleOut where
  ruleId : String
  rulesetId : String
deriving DecidableEq, Repr

/-- Requests the RedirectRule handler can issue.  `getZone` is the provider
lookup `getZoneByDomain` performs when the zone prop is a domain name. -/
inductive RRReq
  | getZone (domain : String)
  | deleteRule (zoneId rulesetId ruleId : String)
  | getOrCreateRuleset (zoneId : String)
  | createRule (zoneId rulesetId expression : String)
  | patchRule (zoneId rulesetId ruleId expression : String)
deriving DecidableEq, Repr

/-- The components `new URL(wildcardUrl)` exposes to
`convertWildcardUrlToExpression`.  `new URL` is the platform's WHATWG URL
parser, not repository code; the handler obtains the parse from the
environment via `RedirectRuleApi.parseUrl`. -/
structure ParsedUrl where
  hostname : String
  pathname : String
  protocol : String
deriving DecidableEq, Repr

/-- The remote side of the RedirectRule handler.  `getZoneByDomain` is not
under `src/`; per its call site it is a provider GET resolving a domain to a
zone (modelled as a lookup that may find no zone). -/
structure RedirectRuleApi where
  zoneByDomain : String → Option String
  deleteOk : Bool
  rulesetId : String
  createResult : Except ApiError String
  updateResult : Except ApiError String
  parseUrl : String → ParsedUrl

/-- `convertWildcardUrlToExpression`, branch for branch from the source:
hostname wildcards become `ends_with` / `starts_with` / two-part /
`contains` matches, pathname wildcards likewise (a non-root literal path
becomes an `==` match), and the protocol appends `ssl` / `not ssl`. -/
def convertWildcardUrlToExpression (url : ParsedUrl) : String :=
  let hostname := url.hostname
  let pathname := url.pathname
  let expression := ""
  let expression :=
    if strIncludes hostname "*" then
      if hostname.startsWith "*" then
        expression ++ "http.host ends_with \"" ++ hostname.drop 1 ++ "\""
      else if hostname.endsWith "*" then
        expression ++ "http.host starts_with \"" ++ hostname.dropRight 1 ++ "\""
      else
        match hostname.splitOn "*" with
        | [p0, p1] =>
          expression ++ "http.host starts_with \"" ++ p0 ++
            "\" and http.host ends_with \"" ++ p1 ++ "\""
        | _ =>
          let baseDomain :=
            if hostname.startsWith "*." then hostname.drop 2 else hostname
          let baseDomain :=
            if baseDomain.endsWith ".*" then baseDomain.dropRight 2 else baseDomain
          expression ++ "http.host contains \"" ++ baseDomain ++ "\""
    else
      expression ++ "http.host == \"" ++ hostname ++ "\""
  let pathContains (parts : List String) : String :=
    let nonWildcardPart := (parts.find? fun part => !part.isEmpty).getD ""
    if !nonWildcardPart.isEmpty then
      " and http.request.uri.path contains \"" ++ nonWildcardPart ++ "\""
    else
      ""
  let expression :=
    if strIncludes pathname "*" then
      if pathname.endsWith "*" then
        expression ++ " and http.request.uri.path starts_with \"" ++
          pathname.dropRight 1 ++ "\""
      else if pathname.startsWith "*" then
        expression ++ " and http.request.uri.path ends_with \"" ++
          pathname.drop 1 ++ "\""
      else
        match pathname.splitOn "*" with
        | [p0, p1] =>
          if !p0.isEmpty && !p1.isEmpty then
            expression ++ " and http.request.uri.path starts_with \"" ++ p0 ++
              "\" and http.request.uri.path ends_with \"" ++ p1 ++ "\""
          else
            expression ++ pathContains [p0, p1]
        | parts => expression ++ pathContains parts
    else if pathname != "/" then
      expression ++ " and http.request.uri.path == \"" ++ pathname ++ "\""
    else
      expression
  if url.protocol == "https:" then
    expression ++ " and ssl"
  else if url.protocol == "http:" then
    expression ++ " and not ssl"
  else
    expression

/-- The `cloudflare::RedirectRule` handler, embedded down to rule
creation/update (the created rule's fields other than ids are abstracted
into `api`).  The order mirrors the source: zone resolution (a provider GET
when the zone is a domain name) happens before the delete branch and before
the requestUrl/expression validation. -/
def redirectRuleHandler (phase : Phase) (props : RedirectRuleProps)
    (output : Option RedirectRuleOut) (api : RedirectRuleApi) (physical : String) :
    Except ApiError (ResourceResult RedirectRuleOut) × List RRReq :=
  let _description := props.description.getD physical
  let zoneLookup : Option String × List RRReq :=
    match props.zone with
    | .name s =>
      if strIncludes s "." then (api.zoneByDomain s, [.getZone s])
      else (some s, [])
    | .resource z => (some z, [])
  match zoneLookup with
  | (zoneId?, zoneReqs) =>
    if !(zoneId?.any (!·.isEmpty)) then
      (.error { message := "Zone not found" }, zoneReqs)
    else
      let zoneId := zoneId?.getD ""
      match phase with
      | .delete =>
        match output with
        | some o =>
          if !o.ruleId.isEmpty && !o.rulesetId.isEmpty then
            if api.deleteOk then
              (.ok .destroyed, zoneReqs ++ [.deleteRule zoneId o.rulesetId o.ruleId])
            else
              (.error { message := "delete rule failed" },
                zoneReqs ++ [.deleteRule zoneId o.rulesetId o.ruleId])
          else
            (.ok .destroyed, zoneReqs)
        | none => (.ok .destroyed, zoneReqs)
      | _ =>
        if strTruthy props.requestUrl && strTruthy props.expression then
          (.error { message := "Cannot specify both requestUrl and expression. " ++
              "Use requestUrl for wildcard redirects or expression for dynamic redirects." },
            zoneReqs)
        else
          let ruleExpression :=
            if strTruthy props.requestUrl then
              convertWildcardUrlToExpression (api.parseUrl (props.requestUrl.getD ""))
            else if strTruthy props.expression then
              props.expression.getD ""
            else
              "true"
          if phase == .update && (output.map (·.ruleId)).any (!·.isEmpty) &&
              (output.map (·.rulesetId)).any (!·.isEmpty) then
            let o := output.getD { ruleId := "", rulesetId := "" }
            match api.updateResult with
            | .ok ruleId =>
              (.ok (.ok { ruleId := ruleId, rulesetId := o.rulesetId }),
                zoneReqs ++ [.patchRule zoneId o.rulesetId o.ruleId ruleExpression])
            | .error e =>
              (.error e, zoneReqs ++ [.patchRule zoneId o.rulesetId o.ruleId ruleExpression])
          else
            match api.createResult with
            | .ok ruleId =>
              (.ok (.ok { ruleId := ruleId, rulesetId := api.rulesetId }),
                zoneReqs ++ [.getOrCreateRuleset zoneId,
                  .createRule zoneId api.rulesetId ruleExpression])
            | .error e =>
              (.error e, zoneReqs ++ [.getOrCreateRuleset zoneId,
                .createRule zoneId api.rulesetId ruleExpression])

/-! ## Neon Project (src/alchemy/src/neon/project.ts) -/

/-- `NeonProjectProps` (the fields the lifecycle logic consumes). -/
structure NeonProjectProps where
  adopt : Option Bool := none
  delete : Option Bool := none
  name : Option String := none
  region_id : Option String := none
  pg_version : Option Nat := none
  default_branch_name : Option String := none
  history_retention_seconds : Option Nat := none
deriving DecidableEq, Repr

/-- The `NeonProject` output fields the lifecycle logic consumes (branch,
endpoint, role and connection data are carried opaquely by `rest`). -/
structure NeonProject where
  id : String
  name : String
  rest : List (String × String) := []
deriving DecidableEq, Repr

/-- Neon API errors: `fetchProject` throws `NeonProjectNotFound` when the
name search returns nothing; other failures are plain errors. -/
inductive NeonError
  | notFound (name : String)
  | other (message : String)
deriving DecidableEq, Repr

/-- Requests the NeonProject handler can issue. -/
inductive NReq
  | fetchProject (name : String)
  | createProject (name : String)
  | updateProject (id : String) (name : String)
  | deleteProject (id : String)
deriving DecidableEq, Repr

/-- The remote side of the NeonProject handler.  `deleteResponse id` is the
(optional error, HTTP status) pair of the DELETE. -/
structure NeonApi where
  fetchByName : String → Except NeonError NeonProject
  createResult : String → Except NeonError NeonProject
  updateResult : String → String → Except NeonError NeonProject
  deleteResponse : String → Option String × Nat

/-- `if (props.adopt)` — NeonProject's create phase consults the per-call
prop alone (JS truthiness of `adopt?: true`); the scope's adopt flag is not
read. -/
def neonProjectAdopt (propsAdopt : Option Bool) : Bool :=
  propsAdopt.getD false

/-- The `neon::Project` handler, embedded.  The create-path assembly of
branch/endpoint/connection data (`waitForOperations` and the follow-up GETs)
is abstracted into `api.createResult`, which returns the final output;
`physical` is `this.scope.createPhysicalName(id)`. -/
def neonProjectHandler (phase : Phase) (props : NeonProjectProps)
    (output : Option NeonProject) (scopeAdopt : Bool) (api : NeonApi)
    (physical : String) :
    Except NeonError (ResourceResult NeonProject) × List NReq :=
  let _ := scopeAdopt
  let name := resolvePhysicalName props.name (output.map (·.name)) physical
  match phase with
  | .create =>
    if neonProjectAdopt props.adopt then
      match api.fetchByName name with
      | .ok project => (.ok (.ok project), [.fetchProject name])
      | .error (.notFound _) =>
        -- project not found: fall through to creation
        match api.createResult name with
        | .ok project => (.ok (.ok project), [.fetchProject name, .createProject name])
        | .error e => (.error e, [.fetchProject name, .createProject name])
      | .error e => (.error e, [.fetchProject name])
    else
      match api.createResult name with
      | .ok project => (.ok (.ok project), [.createProject name])
      | .error e => (.error e, [.createProject name])
  | .update =>
    let oid := (output.map (·.id)).getD ""
    match api.updateResult oid name with
    | .ok project => (.ok (.ok project), [.updateProject oid name])
    | .error e => (.error e, [.updateProject oid name])
  | .delete =>
    if props.delete != some false && (output.map (·.id)).any (!·.isEmpty) then
      let oid := (output.map (·.id)).getD ""
      match api.deleteResponse oid with
      | (some err, status) =>
        if status != 404 then
          (.error (.other ("Failed to delete project: " ++ err)), [.deleteProject oid])
        else
          (.ok .destroyed, [.deleteProject oid])
      | (none, _) => (.ok .destroyed, [.deleteProject oid])
    else
      (.ok .destroyed, [])

/-! ## Forced replace sequencing (modelled from the spec) -/

/-- Modelled from the spec: §4.3 forced-replace — after the handler invokes
the replace-mutator, the engine (not under `src/`) runs the handler in
delete phase against the previous output, then in create phase with the new
props, and persists the new output under the unchanged logical id. -/
def forcedReplaceTunnelRoute (props : TunnelRouteProps) (prev : TunnelRoute)
    (scopeAdopt : Bool) (api : TunnelRouteApi) :
    Except ApiError (ResourceResult TunnelRoute) × List TRReq :=
  match tunnelRouteHandler .delete props (some prev) scopeAdopt api with
  | (.ok _, delReqs) =>
    match tunnelRouteHandler .create props none scopeAdopt api with
    | (res, createReqs) => (res, delReqs ++ createReqs)
  | (.error e, delReqs) => (.error e, delReqs)

/-- Modelled from the spec: §4.3 forced-replace for WarpDeviceProfile. -/
def forcedReplaceWarpProfile (props : WarpDeviceProfileProps)
    (prev : WarpDeviceProfile) (scopeAdopt : Bool) (api : WarpApi)
    (physical : String) (now : Nat) :
    Except ApiError (ResourceResult WarpDeviceProfile) × List WReq :=
  match warpDeviceProfileHandler .delete props (some prev) scopeAdopt api physical now with
  | (.ok _, delReqs) =>
    match warpDeviceProfileHandler .create props none scopeAdopt api physical now with
    | (res, createReqs) => (res, delReqs ++ createReqs)
  | (.error e, delReqs) => (.error e, delReqs)

/-! ## Concrete remote environments for witnesses and counterexamples -/

/-- A quiescent TunnelRoute remote: empty table, create conflicts with a 409. -/
def sampleTRApi : TunnelRouteApi :=
  { routes := [{ id := "route-1", network := "10.0.0.0/8", tunnel_id := "tun-1" }]
    createResult := .error { message := "route already exists", status := some 409 }
    update := fun rid _ => .ok { id := rid, network := "10.0.0.0/8", tunnel_id := "tun-1" }
    deleteStatus := fun _ => 404 }

/-- A WarpDeviceProfile remote with one existing policy. -/
def sampleWarpApi : WarpApi :=
  { policies := [{ id := "pol-1", name := "profile-a" }]
    createResult := .error { message := "profile already exists", status := some 409 }
    updateStatus := 200
    deleteStatus := fun _ => 404
    putSplitTunnelStatus := 200 }

/-- A RateCard remote whose create conflicts and whose table holds one card
with lookup key `"lk"` — adoptable, were the handler to look. -/
def sampleRateCardApi : StripeRateCardApi :=
  { createResult := .error { message := "conflict", status := some 409 }
    update := fun i _ =>
      .ok { id := i, display_name := "Cards", currency := "usd",
            service_interval := "month", service_interval_count := 1,
            tax_behavior := "exclusive", lookup_key := some "lk" }
    delResult := fun _ => .error { status := some 404 }
    listResult := [{ id := "rc-existing", display_name := "Cards", currency := "usd",
                     service_interval := "month", service_interval_count := 1,
                     tax_behavior := "exclusive", lookup_key := some "lk" }] }

/-- A RedirectRule remote that resolves every domain to zone `"zone-1"`. -/
def sampleRRApi : RedirectRuleApi :=
  { zoneByDomain := fun _ => some "zone-1"
    deleteOk := true
    rulesetId := "rs-1"
    createResult := .ok "rule-1"
    updateResult := .ok "rule-1"
    parseUrl := fun _ => { hostname := "example.com", pathname := "/", protocol := "https:" } }

/-- A Neon remote with one adoptable project and a working create. -/
def sampleNeonApi : NeonApi :=
  { fetchByName := fun n => .ok { id := "proj-existing", name := n }
    createResult := fun n => .ok { id := "proj-new", name := n }
    updateResult := fun i n => .ok { id := i, name := n }
    deleteResponse := fun _ => (none, 200) }

/-- A Stripe Rate remote accepting every request. -/
def sampleRateApi : StripeRateApi :=
  { create := fun rc p =>
      .ok { id := "rate-1", rate_card := rc, metered_item := p.metered_item,
            unit_amount := p.unit_amount, tiers := p.tiers, tiers_mode := p.tiers_mode }
    update := fun rc rid p =>
      .ok { id := rid, rate_card := rc, metered_item := "mi-1",
            unit_amount := p.unit_amount, tiers := p.tiers, tiers_mode := p.tiers_mode }
    delResult := fun _ _ => .ok () }

/-! ## Helper lemmas -/

theorem charDigitVal_digitChar {d : Nat} (hd : d < 10) :
    charDigitVal (Nat.digitChar d) = d ∧ (Nat.digitChar d).isDigit = true := by
  interval_cases d <;> exact ⟨by decide, by decide⟩

theorem takeWhile_eq_self {α} (p : α → Bool) :
    ∀ l : List α, (∀ a ∈ l, p a = true) → l.takeWhile p = l
  | [], _ => rfl
  | a :: l, h => by
    have ha := h a (List.mem_cons_self a l)
    have hl := takeWhile_eq_self p l fun b hb => h b (List.mem_cons_of_mem a hb)
    simp [List.takeWhile_cons, ha, hl]

theorem map_eq_self {α} (f : α → α) :
    ∀ l : List α, (∀ a ∈ l, f a = a) → l.map f = l
  | [], _ => rfl
  | a :: l, h => by
    have ha := h a (List.mem_cons_self a l)
    have hl := map_eq_self f l fun b hb => h b (List.mem_cons_of_mem a hb)
    simp [ha, hl]

/-- Decimal print/parse round-trip: `parseInt(String(n), 10) = n`. -/
theorem jsParseInt_jsStringOfNat (n : Nat) : jsParseInt (jsStringOfNat n) = some n := by
  by_cases h0 : n = 0
  · subst h0
    decide
  · have hchars : ∀ c ∈ ((Nat.digits 10 n).map Nat.digitChar).reverse, c.isDigit = true := by
      intro c hc
      simp only [List.mem_reverse, List.mem_map] at hc
      obtain ⟨d, hd, rfl⟩ := hc
      exact (charDigitVal_digitChar (Nat.digits_lt_base (by norm_num) hd)).2
    have hne : (Nat.digits 10 n) ≠ [] := Nat.digits_ne_nil_iff_ne_zero.mpr h0
    have hne' : ((Nat.digits 10 n).map Nat.digitChar).reverse ≠ [] := by
      simp [hne]
    rw [jsStringOfNat, if_neg h0, jsParseInt]
    simp only
    rw [takeWhile_eq_self Char.isDigit _ hchars]
    rw [if_neg (by simpa [List.isEmpty_iff] using hne')]
    congr 1
    rw [List.map_reverse, List.reverse_reverse, List.map_map]
    have hmap : (Nat.digits 10 n).map (charDigitVal ∘ Nat.digitChar) = Nat.digits 10 n :=
      map_eq_self _ _ fun d hd =>
        (charDigitVal_digitChar (Nat.digits_lt_base (by norm_num) hd)).1
    rw [hmap, Nat.ofDigits_digits]

theorem listTunnelRoutesGo_server (all : List CloudflareRoute) (limit : Option Nat) :
    ∀ fuel k, all.length ≤ (k + fuel + 1) * 100 →
      listTunnelRoutesGo (routesServer all) limit (fuel + 1) (k + 1) (all.take (k * 100)) =
        some (listExpected all limit) := by
  intro fuel
  induction fuel with
  | zero =>
    intro k hk
    rw [listTunnelRoutesGo]
    simp only [routesServer, Nat.add_sub_cancel]
    rw [← List.take_add]
    by_cases hlim : (limitTruthy limit && decide (limit.getD 0 ≤ (all.take (k * 100 + 100)).length)) = true
    · simp only [hlim, if_true]
      rcases limit with _ | l
      · simp [limitTruthy] at hlim
      · have hl0 : l ≠ 0 := by
          simp only [limitTruthy, Bool.and_eq_true] at hlim
          simpa using hlim.1
        have hle : l ≤ (all.take (k * 100 + 100)).length := by
          simp only [Bool.and_eq_true, decide_eq_true_eq] at hlim
          simpa using hlim.2
        have hle' : l ≤ k * 100 + 100 := le_trans hle (by
          simpa using List.length_take_le (k * 100 + 100) all)
        simp only [Option.getD_some, List.take_take, min_eq_left hle']
        simp [listExpected, hl0]
    · simp only [hlim, if_false]
      have hall : all.length ≤ k * 100 + 100 := by omega
      have htake : all.take (k * 100 + 100) = all := List.take_of_length_le hall
      have hmore : ¬ ((k + 1) * 100 < all.length) := by omega
      simp only [htake, hmore, if_false]
      rcases limit with _ | l
      · simp [listExpected]
      · by_cases hl0 : l = 0
        · simp [listExpected, hl0]
        · -- the limit branch was not taken, so all.length < l and take l all = all
          simp only [limitTruthy, Bool.and_eq_true, decide_eq_true_eq, not_and,
            Option.getD_some, htake] at hlim
          have hlen : ¬ (l ≤ all.length) := fun hle => hlim (by simpa using hl0) hle
          have h2 : all.length ≤ l := by omega
          simp [listExpected, hl0, List.take_of_length_le h2]
  | succ fuel ih =>
    intro k hk
    rw [listTunnelRoutesGo]
    simp only [routesServer, Nat.add_sub_cancel]
    rw [← List.take_add]
    by_cases hlim : (limitTruthy limit && decide (limit.getD 0 ≤ (all.take (k * 100 + 100)).length)) = true
    · simp only [hlim, if_true]
      rcases limit with _ | l
      · simp [limitTruthy] at hlim
      · have hl0 : l ≠ 0 := by
          simp only [limitTruthy, Bool.and_eq_true] at hlim
          simpa using hlim.1
        have hle : l ≤ (all.take (k * 100 + 100)).length := by
          simp only [Bool.and_eq_true, decide_eq_true_eq] at hlim
          simpa using hlim.2
        have hle' : l ≤ k * 100 + 100 := le_trans hle (by
          simpa using List.length_take_le (k * 100 + 100) all)
        simp only [Option.getD_some, List.take_take, min_eq_left hle']
        simp [listExpected, hl0]
    · simp only [hlim, if_false]
      by_cases hmore : (k + 1) * 100 < all.length
      · simp only [hmore, if_true]
        have := ih (k + 1) (by omega)
        simpa [Nat.add_mul, Nat.one_mul] using this
      · simp only [hmore, if_false]
        have hall : all.length ≤ k * 100 + 100 := by omega
        have htake : all.take (k * 100 + 100) = all := List.take_of_length_le hall
        rcases limit with _ | l
        · simp [htake, listExpected]
        · by_cases hl0 : l = 0
          · simp [htake, listExpected, hl0]
          · simp only [limitTruthy, Bool.and_eq_true, decide_eq_true_eq, not_and,
              Option.getD_some, htake] at hlim
            have hlen : ¬ (l ≤ all.length) := fun hle => hlim (by simpa using hl0) hle
            have h2 : all.length ≤ l := by omega
            simp [htake, listExpected, hl0, List.take_of_length_le h2]

/-- Against a well-behaved server, `listTunnelRoutes` with enough fuel
returns exactly the expected list. -/
theorem listTunnelRoutes_server (all : List CloudflareRoute) (limit : Option Nat) :
    listTunnelRoutes (routesServer all) limit (all.length + 1) = some (listExpected all limit) := by
  have h := listTunnelRoutesGo_server all limit all.length 0 (by nlinarith)
  simpa [listTunnelRoutes] using h

/-- `warpReconcile` never yields the replace signal: only the handler's
immutable-name check does. -/
theorem warpReconcile_fst_ne_replace (phase : Phase) (props : WarpDeviceProfileProps)
    (output : Option WarpDeviceProfile) (adopt : Bool) (name : String)
    (api : WarpApi) (now : Nat) :
    (warpReconcile phase props output adopt name api now).1 ≠ .ok .replace := by
  simp only [warpReconcile]
  split
  · split
    · simp
    · rcases h : warpSplitTunnelStep props api ((output.map (·.policyId)).getD "")
        with ⟨r, reqs⟩
      rcases r with e | u <;> simp [h]
  · rcases hc : api.createResult with e | r
    · simp only [hc]
      split
      · rcases hf : findPolicyByName api.policies name with _ | pid
        · simp [hf]
        · rcases h : warpSplitTunnelStep props api pid with ⟨r1, reqs⟩
          rcases r1 with e1 | u <;> simp [hf, h]
      · simp
    · simp only [hc]
      rcases h : warpSplitTunnelStep props api (r.policy_id.getD r.id) with ⟨r1, reqs⟩
      rcases r1 with e1 | u <;> simp [h]

/-- The TunnelRoute create path never yields the replace signal: only the
handler's immutable-prop checks do. -/
theorem tunnelRouteCreateStep_fst_ne_replace (props : TunnelRouteProps) (adopt : Bool)
    (api : TunnelRouteApi) :
    (tunnelRouteCreateStep props adopt api).1 ≠ .ok .replace := by
  simp only [tunnelRouteCreateStep]
  rcases hc : api.createResult with e | r
  · simp only
    split
    · rcases hf : findRouteOnServer api.routes props.network (resolveTunnelId props.tunnel)
        with _ | (_ | r)
      · simp [hf]
      · simp [hf]
      · simp only [hf]
        split
        · rcases hu : api.update r.id { comment := props.comment, virtual_network_id := props.virtualNetworkId } with e2 | rt <;> simp [hu]
        · simp
    · simp
  · simp

/-- Against the api's route table, the adoption lookup reduces to a plain
`find?` (the pagination always terminates with the chosen fuel). -/
theorem findRouteOnServer_eq (routes : List CloudflareRoute) (network tunnelId : String) :
    findRouteOnServer routes network tunnelId =
      some (routes.find? fun r => r.network == network && r.tunnel_id == tunnelId) := by
  simp [findRouteOnServer, findRouteByNetworkAndTunnel, listTunnelRoutes_server,
    listExpected]

/-! ## Claims -/

/-- C9: `listTunnelRoutes` pages through the route list 100 at a time and
concatenates the pages in order; with a positive limit `L` it returns the
first `min L total` routes and returns as soon as at least `L` routes have
been gathered; without a limit it stops exactly when
`page * per_page ≥ total_count`, returning every route. -/
theorem claim_C9_listTunnelRoutes_pagination (all : List CloudflareRoute) (L : Nat)
    (hL : 0 < L) :
    listTunnelRoutes (routesServer all) (some L) (all.length + 1) = some (all.take L) ∧
    listTunnelRoutes (routesServer all) none (all.length + 1) = some all ∧
    (∀ (pages : Nat → Nat → RoutesPage) (fuel page : Nat) (routes : List CloudflareRoute),
      L ≤ (routes ++ (pages page 100).result).length →
      listTunnelRoutesGo pages (some L) (fuel + 1) page routes =
        some ((routes ++ (pages page 100).result).take L)) := by
  refine ⟨?_, ?_, ?_⟩
  · rw [listTunnelRoutes_server]
    simp [listExpected, Nat.pos_iff_ne_zero.mp hL]
  · rw [listTunnelRoutes_server]
    simp [listExpected]
  · intro pages fuel page routes hlen
    rw [listTunnelRoutesGo]
    have hcheck : (limitTruthy (some L) &&
        decide (L ≤ (routes ++ (pages page 100).result).length)) = true := by
      simp only [limitTruthy, Bool.and_eq_true, bne_iff_ne, ne_eq, decide_eq_true_eq]
      exact ⟨Nat.pos_iff_ne_zero.mp hL, hlen⟩
    simp only [Option.getD_some, hcheck, if_true]

/-- Witness for C9 at a two-route table and limit 1. -/
theorem claim_C9_witness :
    listTunnelRoutes (routesServer [{ id := "r1", network := "10.0.0.0/8", tunnel_id := "t1" },
        { id := "r2", network := "10.1.0.0/16", tunnel_id := "t2" }]) (some 1) 3 =
      some [{ id := "r1", network := "10.0.0.0/8", tunnel_id := "t1" }] :=
  (claim_C9_listTunnelRoutes_pagination
    [{ id := "r1", network := "10.0.0.0/8", tunnel_id := "t1" },
      { id := "r2", network := "10.1.0.0/16", tunnel_id := "t2" }] 1 (by decide)).1


/-- C10: converting a rate tier (non-negative integer or absent amounts) to
its wire form — amounts stringified via `String`, `upTo` passed through —
and mapping the result back through `mapV2TierToOutput` yields the original
tier; and a wire `up_to` of `null` maps back to `"inf"`. -/
theorem claim_C10_tier_roundtrip :
    (∀ tier : RateTier, mapV2TierToOutput (toApiTier tier) = tier) ∧
    (∀ ua fa : Option String,
      (mapV2TierToOutput { up_to := .null, unit_amount := ua, flat_amount := fa }).upTo =
        .inf) := by
  constructor
  · have hparse : ∀ x : Option Nat, truthyParseInt (x.map jsStringOfNat) = x := by
      rintro (_ | n)
      · rfl
      · have hne : jsStringOfNat n ≠ "" := by
          rw [jsStringOfNat]
          split
          · decide
          · rename_i hn0
            intro h
            have hd : ((Nat.digits 10 n).map Nat.digitChar).reverse = [] := by
              have hdata := congrArg String.data h
              simpa using hdata
            have hnil : Nat.digits 10 n = [] := by simpa using hd
            exact Nat.digits_ne_nil_iff_ne_zero.mpr hn0 hnil
        simp [truthyParseInt, hne, jsParseInt_jsStringOfNat n]
    rintro ⟨u, ua, fa⟩
    cases u <;> simp [toApiTier, mapV2TierToOutput, hparse]
  · intro ua fa
    rfl

/-- C2: a delete-phase invocation with `delete: false` issues no remote
delete request and still returns the destroyed state — shown for
TunnelRoute, WarpDeviceProfile and NeonProject.  (That the engine then
removes the record while the remote object survives is the meaning of the
destroyed result per §4.4 of the spec.) -/
theorem claim_C2_delete_false_skips_remote_delete
    (trProps : TunnelRouteProps) (trOut : Option TunnelRoute) (trApi : TunnelRouteApi)
    (wProps : WarpDeviceProfileProps) (wOut : Option WarpDeviceProfile) (wApi : WarpApi)
    (nProps : NeonProjectProps) (nOut : Option NeonProject) (nApi : NeonApi)
    (scopeAdopt : Bool) (physical : String) (now : Nat)
    (htr : trProps.delete = some false) (hw : wProps.delete = some false)
    (hn : nProps.delete = some false) :
    tunnelRouteHandler .delete trProps trOut scopeAdopt trApi = (.ok .destroyed, []) ∧
    warpDeviceProfileHandler .delete wProps wOut scopeAdopt wApi physical now =
      (.ok .destroyed, []) ∧
    neonProjectHandler .delete nProps nOut scopeAdopt nApi physical =
      (.ok .destroyed, []) := by
  refine ⟨?_, ?_, ?_⟩
  · simp [tunnelRouteHandler, htr]
  · cases wOut <;> simp [warpDeviceProfileHandler, hw]
  · simp [neonProjectHandler, hn]

/-- Witness for C2 at concrete inputs. -/
theorem claim_C2_witness :
    tunnelRouteHandler .delete
        { network := "10.0.0.0/8", tunnel := .id "tun-1", delete := some false }
        (some { id := "route-1", network := "10.0.0.0/8", tunnelId := "tun-1",
                comment := none, virtualNetworkId := none, createdAt := "",
                deletedAt := none })
        false sampleTRApi = (.ok .destroyed, []) ∧
    warpDeviceProfileHandler .delete { delete := some false }
        (some (warpProfileOut {} "profile-a" "pol-1" 1 1)) false sampleWarpApi
        "phys" 2 = (.ok .destroyed, []) ∧
    neonProjectHandler .delete { delete := some false }
        (some { id := "proj-1", name := "n" }) false sampleNeonApi "phys" =
      (.ok .destroyed, []) :=
  claim_C2_delete_false_skips_remote_delete _ _ _ _ _ _ _ _ _ _ _ _ rfl rfl rfl

/-- C3: during a delete-phase invocation with deletion enabled, a 404 from
the provider's delete endpoint is treated as success: no error and the
destroyed state is still returned — shown for TunnelRoute (`deleteRoute`),
WarpDeviceProfile (`deletePolicy`), the shared `handleStripeV2DeleteError`,
and RateCard. -/
theorem claim_C3_delete_404_is_success
    (trProps : TunnelRouteProps) (trOut : TunnelRoute) (trApi : TunnelRouteApi)
    (wProps : WarpDeviceProfileProps) (wOut : WarpDeviceProfile) (wApi : WarpApi)
    (rcProps : RateCardProps) (rcOut : RateCard) (rcApi : StripeRateCardApi)
    (e : StripeError) (scopeAdopt : Bool) (physical : String) (now : Nat)
    (htrd : trProps.delete ≠ some false) (htrr : trProps.routeId = none)
    (htri : trOut.id.isEmpty = false)
    (htr404 : trApi.deleteStatus trOut.id = 404)
    (hwd : wProps.delete ≠ some false) (hwp : wOut.policyId.isEmpty = false)
    (hw404 : wApi.deleteStatus wOut.policyId = 404)
    (he : e.status = some 404)
    (hrci : rcOut.id.isEmpty = false) (hrc404 : rcApi.delResult rcOut.id = .error e) :
    tunnelRouteHandler .delete trProps (some trOut) scopeAdopt trApi =
      (.ok .destroyed, [.deleteRoute trOut.id]) ∧
    warpDeviceProfileHandler .delete wProps (some wOut) scopeAdopt wApi physical now =
      (.ok .destroyed, [.deletePolicy wOut.policyId]) ∧
    handleStripeV2DeleteError e = .ok () ∧
    rateCardHandler .delete rcProps (some rcOut) scopeAdopt rcApi =
      (.ok .destroyed, [.delRateCard rcOut.id]) := by
  refine ⟨?_, ?_, ?_, ?_⟩
  · simp [tunnelRouteHandler, strOr, strTruthy, htrr, htri, htrd, deleteRoute,
      htr404, statusOk]
  · simp [warpDeviceProfileHandler, hwp, hwd, deletePolicy, hw404, statusOk]
  · simp [handleStripeV2DeleteError, he]
  · simp [rateCardHandler, hrci, hrc404, he]

/-- Witness for C3 at concrete inputs. -/
theorem claim_C3_witness :
    tunnelRouteHandler .delete { network := "10.0.0.0/8", tunnel := .id "tun-1" }
        (some { id := "route-1", network := "10.0.0.0/8", tunnelId := "tun-1",
                comment := none, virtualNetworkId := none, createdAt := "",
                deletedAt := none })
        false sampleTRApi = (.ok .destroyed, [.deleteRoute "route-1"]) ∧
    warpDeviceProfileHandler .delete {}
        (some (warpProfileOut {} "profile-a" "pol-1" 1 1)) false sampleWarpApi
        "phys" 2 = (.ok .destroyed, [.deletePolicy "pol-1"]) ∧
    handleStripeV2DeleteError { status := some 404 } = .ok () ∧
    rateCardHandler .delete { displayName := "Cards", currency := "usd" }
        (some (mapV2RateCardToOutput
          { id := "rc-1", display_name := "Cards", currency := "usd",
            service_interval := "month", service_interval_count := 1,
            tax_behavior := "exclusive" }))
        false sampleRateCardApi = (.ok .destroyed, [.delRateCard "rc-1"]) :=
  claim_C3_delete_404_is_success _ _ _ _ _ _ _ _ _ _ _ _ _
    (by decide) rfl rfl rfl (by decide) rfl rfl rfl rfl rfl

/-- C7: a Stripe v2 request retries only on rate-limit errors (HTTP 429,
code "rate_limit" or type "rate_limit_error"), with at most 5 attempts and
exponential backoff starting at 1000 ms; a non-rate-limit failure
propagates without any retry, and a success returns at once.  The
`withExponentialBackoff` combinator is modelled from the spec (its source
file is not under `src/`); `isStripeV2RetryableError` is from the source. -/
theorem claim_C7_stripe_retry {α : Type} (attempts : Nat → Except StripeError α)
    (e : StripeError) (a : α) :
    (attempts 0 = .error e → isStripeV2RetryableError e = false →
      stripeV2Request attempts = (.error e, [])) ∧
    (attempts 0 = .ok a → stripeV2Request attempts = (.ok a, [])) ∧
    ((∀ k, attempts k = .error e) → isStripeV2RetryableError e = true →
      stripeV2Request attempts = (.error e, [1000, 2000, 4000, 8000])) ∧
    (isStripeV2RetryableError e =
      (e.status == some 429 || e.statusCode == some 429 ||
        e.code == some "rate_limit" || e.errType == some "rate_limit_error")) := by
  refine ⟨?_, ?_, ?_, rfl⟩
  · intro h hr
    simp [stripeV2Request, withExponentialBackoff, h, hr]
  · intro h
    simp [stripeV2Request, withExponentialBackoff, h]
  · intro h hr
    simp [stripeV2Request, withExponentialBackoff, h, hr]

/-- Witness for C7: a permanent rate-limit error exhausts the 5 attempts
with delays 1000, 2000, 4000, 8000 ms; a 500 propagates with no retry. -/
theorem claim_C7_witness :
    stripeV2Request (fun _ => .error { status := some 429 } :
        Nat → Except StripeError Nat) =
      (.error { status := some 429 }, [1000, 2000, 4000, 8000]) ∧
    stripeV2Request (fun _ => .error { status := some 500 } :
        Nat → Except StripeError Nat) =
      (.error { status := some 500 }, []) :=
  ⟨(claim_C7_stripe_retry (fun _ => .error { status := some 429 })
      { status := some 429 } 0).2.2.1 (fun _ => rfl) (by decide),
    (claim_C7_stripe_retry (fun _ => .error { status := some 500 })
      { status := some 500 } 0).1 rfl (by decide)⟩

/-- C5 counterexample: with the zone given as a domain name, a RedirectRule
invocation carrying both `requestUrl` and `expression` throws the
validation error only after a zone-lookup GET has already been issued
(source order: zone resolution precedes the validation), so the failure is
not "before any I/O" as claimed. -/
theorem claim_C5_counterexample :
    redirectRuleHandler .create
        { zone := .name "example.com",
          requestUrl := some "https://example.com/files/*",
          expression := some "http.request.uri.path contains \"x\"",
          targetUrl := "https://example.com/" }
        none sampleRRApi "desc" =
      (.error { message := "Cannot specify both requestUrl and expression. " ++
          "Use requestUrl for wildcard redirects or expression for dynamic redirects." },
        [.getZone "example.com"]) := by
  rfl

/-- C5 (amended): Rate's conflicting/missing-props validation fails before
any provider request (empty trace); RedirectRule's both-props validation
error is likewise thrown before any ruleset lookup or rule mutation, but
only after zone resolution — with a zone id nothing precedes it, while a
domain-name zone has already cost a zone-lookup GET. -/
theorem claim_C5_amended_validation_before_mutation
    (phase : Phase) (hph : phase ≠ .delete) :
    (∀ (props : RateProps) (out : Option Rate) (api : StripeRateApi)
        (ts : List RateTier),
      props.tiers = some ts → ts ≠ [] → props.unitAmount.isSome = true →
      rateHandler phase props out api =
        (.error (.validation
          "Cannot specify both unitAmount and tiers. Use one or the other."), [])) ∧
    (∀ (props : RateProps) (out : Option Rate) (api : StripeRateApi),
      props.unitAmount = none → (props.tiers = none ∨ props.tiers = some []) →
      rateHandler phase props out api =
        (.error (.validation "Either unitAmount or tiers is required"), [])) ∧
    (∀ (props : RedirectRuleProps) (out : Option RedirectRuleOut)
        (api : RedirectRuleApi) (physical z : String),
      props.zone = .resource z → z.isEmpty = false →
      strTruthy props.requestUrl = true → strTruthy props.expression = true →
      redirectRuleHandler phase props out api physical =
        (.error { message := "Cannot specify both requestUrl and expression. " ++
            "Use requestUrl for wildcard redirects or expression for dynamic redirects." },
          [])) ∧
    (∀ (props : RedirectRuleProps) (out : Option RedirectRuleOut)
        (api : RedirectRuleApi) (physical s zid : String),
      props.zone = .name s → strIncludes s "." = true →
      api.zoneByDomain s = some zid → zid.isEmpty = false →
      strTruthy props.requestUrl = true → strTruthy props.expression = true →
      redirectRuleHandler phase props out api physical =
        (.error { message := "Cannot specify both requestUrl and expression. " ++
            "Use requestUrl for wildcard redirects or expression for dynamic redirects." },
          [.getZone s])) := by
  refine ⟨?_, ?_, ?_, ?_⟩
  · intro props out api ts hts hne hua
    have hlen : decide (0 < ts.length) = true := by
      simpa using List.length_pos.mpr hne
    cases phase <;> simp_all [rateHandler, hts, hlen, hua]
  · intro props out api hua hts
    rcases hts with h | h <;> cases phase <;> simp_all [rateHandler, hua]
  · intro props out api physical z hz hne hr he
    cases phase <;> simp_all [redirectRuleHandler, hz, hne, hr, he]
  · intro props out api physical s zid hz hdot hzone hne hr he
    cases phase <;> simp_all [redirectRuleHandler, hz, hdot, hzone, hne, hr, he]

/-- Witness for C5 (amended) at concrete inputs. -/
theorem claim_C5_witness :
    rateHandler .create
        { rateCard := .id "rc-1", meteredItem := .id "mi-1", unitAmount := some 10,
          tiers := some [{ upTo := .num 100, unitAmount := some 5 }] }
        none sampleRateApi =
      (.error (.validation
        "Cannot specify both unitAmount and tiers. Use one or the other."), []) ∧
    rateHandler .create { rateCard := .id "rc-1", meteredItem := .id "mi-1" }
        none sampleRateApi =
      (.error (.validation "Either unitAmount or tiers is required"), []) ∧
    redirectRuleHandler .create
        { zone := .resource "zone-1", requestUrl := some "https://a/*",
          expression := some "true", targetUrl := "https://b" }
        none sampleRRApi "desc" =
      (.error { message := "Cannot specify both requestUrl and expression. " ++
          "Use requestUrl for wildcard redirects or expression for dynamic redirects." },
        []) ∧
    redirectRuleHandler .create
        { zone := .name "example.com", requestUrl := some "https://a/*",
          expression := some "true", targetUrl := "https://b" }
        none sampleRRApi "desc" =
      (.error { message := "Cannot specify both requestUrl and expression. " ++
          "Use requestUrl for wildcard redirects or expression for dynamic redirects." },
        [.getZone "example.com"]) :=
  ⟨(claim_C5_amended_validation_before_mutation .create (by decide)).1
      _ _ _ _ rfl (by decide) rfl,
    (claim_C5_amended_validation_before_mutation .create (by decide)).2.1
      _ _ _ rfl (Or.inl rfl),
    (claim_C5_amended_validation_before_mutation .create (by decide)).2.2.1
      _ _ _ _ _ rfl rfl rfl rfl,
    (claim_C5_amended_validation_before_mutation .create (by decide)).2.2.2
      _ _ _ _ _ _ rfl (by decide) rfl rfl rfl rfl⟩

/-- C6 counterexample: with no per-call adopt and the scope's adopt flag
true, the claimed uniform rule yields true, but NeonProject's create phase
consults `props.adopt` alone — it goes straight to creation without the
adoption lookup although an adoptable project exists. -/
theorem claim_C6_counterexample :
    effectiveAdoptOr none true = true ∧
    neonProjectAdopt none = false ∧
    neonProjectHandler .create {} none true sampleNeonApi "app-stage-id" =
      (.ok (.ok { id := "proj-new", name := "app-stage-id" }),
        [.createProject "app-stage-id"]) :=
  ⟨rfl, rfl, rfl⟩

/-- C6 (amended): TunnelRoute, RateCard and WarpDeviceProfile resolve the
effective adopt setting as `props.adopt ?? scope.adopt`
(`effectiveAdoptOr`); NeonProject instead reads only `props.adopt`
(default false) and never inherits the scope flag: its create phase
performs the adoption lookup exactly when `props.adopt` is true. -/
theorem claim_C6_amended_adopt_resolution (s b : Bool) :
    effectiveAdoptOr (some b) s = b ∧
    effectiveAdoptOr none s = s ∧
    neonProjectAdopt (some b) = b ∧
    neonProjectAdopt none = false ∧
    (∀ (props : NeonProjectProps) (out : Option NeonProject) (api : NeonApi)
        (physical : String) (s2 : Bool),
      props.adopt = none →
      (neonProjectHandler .create props out s2 api physical).2.head? =
        some (.createProject (resolvePhysicalName props.name (out.map (·.name)) physical))) ∧
    (∀ (props : NeonProjectProps) (out : Option NeonProject) (api : NeonApi)
        (physical : String) (s2 : Bool),
      props.adopt = some true →
      (neonProjectHandler .create props out s2 api physical).2.head? =
        some (.fetchProject (resolvePhysicalName props.name (out.map (·.name)) physical))) := by
  refine ⟨rfl, rfl, rfl, rfl, ?_, ?_⟩
  · intro props out api physical s2 h
    rcases hc : api.createResult (resolvePhysicalName props.name (out.map (·.name)) physical)
      with _ | _ <;> simp [neonProjectHandler, neonProjectAdopt, h, hc]
  · intro props out api physical s2 h
    rcases hf : api.fetchByName (resolvePhysicalName props.name (out.map (·.name)) physical)
      with e | p
    · rcases e with n | m <;>
        rcases hc : api.createResult
          (resolvePhysicalName props.name (out.map (·.name)) physical) with _ | _ <;>
        simp [neonProjectHandler, neonProjectAdopt, h, hf, hc]
    · simp [neonProjectHandler, neonProjectAdopt, h, hf]

/-- Witness for C6 (amended) at concrete inputs. -/
theorem claim_C6_witness :
    effectiveAdoptOr (some true) false = true ∧
    effectiveAdoptOr none false = false ∧
    neonProjectAdopt (some true) = true ∧
    neonProjectAdopt none = false ∧
    (neonProjectHandler .create {} none false sampleNeonApi "phys").2.head? =
      some (.createProject "phys") ∧
    (neonProjectHandler .create { adopt := some true } none false sampleNeonApi
        "phys").2.head? = some (.fetchProject "phys") :=
  ⟨(claim_C6_amended_adopt_resolution false true).1,
    (claim_C6_amended_adopt_resolution false true).2.1,
    (claim_C6_amended_adopt_resolution false true).2.2.1,
    (claim_C6_amended_adopt_resolution false true).2.2.2.1,
    (claim_C6_amended_adopt_resolution false true).2.2.2.2.1 _ _ _ _ _ rfl,
    (claim_C6_amended_adopt_resolution false true).2.2.2.2.2 _ _ _ _ _ rfl⟩

/-- C8: with no explicit name prop, NeonProject and WarpDeviceProfile use
the name recorded in the previous output when one exists and otherwise the
deterministic `createPhysicalName` result (`resolvePhysicalName`), so
repeated runs of an unchanged program target the same remote object. -/
theorem claim_C8_physical_name_resolution :
    (∀ prev physical : String, resolvePhysicalName none (some prev) physical = prev) ∧
    (∀ physical : String, resolvePhysicalName none none physical = physical) ∧
    (∀ (props : NeonProjectProps) (api : NeonApi) (physical : String) (s : Bool),
      props.name = none → props.adopt = none →
      (neonProjectHandler .create props none s api physical).2 =
        [.createProject physical]) ∧
    (∀ (props : NeonProjectProps) (out : NeonProject) (api : NeonApi)
        (physical : String) (s : Bool),
      props.name = none →
      (neonProjectHandler .update props (some out) s api physical).2 =
        [.updateProject out.id out.name]) ∧
    (∀ (props : WarpDeviceProfileProps) (api : WarpApi) (physical : String)
        (s : Bool) (now : Nat) (r : CloudflarePolicyResponse),
      props.name = none → props.splitTunnel = none → api.createResult = .ok r →
      (warpDeviceProfileHandler .create props none s api physical now).2 =
        [.createPolicy (buildRequestBody props physical)]) ∧
    (∀ (props : WarpDeviceProfileProps) (out : WarpDeviceProfile) (api : WarpApi)
        (physical : String) (s : Bool) (now : Nat),
      props.name = none → props.splitTunnel = none →
      out.policyId.isEmpty = false → statusOk api.updateStatus = true →
      (warpDeviceProfileHandler .update props (some out) s api physical now).2 =
        [.patchPolicy out.policyId (buildRequestBody props out.name)]) := by
  refine ⟨fun _ _ => rfl, fun _ => rfl, ?_, ?_, ?_, ?_⟩
  · intro props api physical s hn ha
    rcases hc : api.createResult physical with _ | _ <;>
      simp [neonProjectHandler, neonProjectAdopt, ha, hn, resolvePhysicalName, hc]
  · intro props out api physical s hn
    rcases hu : api.updateResult out.id out.name with _ | _ <;>
      simp [neonProjectHandler, hn, resolvePhysicalName, hu]
  · intro props api physical s now r hn hst hc
    simp [warpDeviceProfileHandler, warpReconcile, hn, resolvePhysicalName, hc,
      warpSplitTunnelStep, hst]
  · intro props out api physical s now hn hst hp hok
    simp [warpDeviceProfileHandler, warpReconcile, hn, resolvePhysicalName, hp, hok,
      warpSplitTunnelStep, hst]

/-- Witness for C8 at concrete inputs. -/
theorem claim_C8_witness :
    resolvePhysicalName none (some "kept-name") "app-stage-id" = "kept-name" ∧
    resolvePhysicalName none none "app-stage-id" = "app-stage-id" ∧
    (neonProjectHandler .create {} none false sampleNeonApi "app-stage-id").2 =
      [.createProject "app-stage-id"] ∧
    (neonProjectHandler .update {} (some { id := "proj-1", name := "kept-name" })
        false sampleNeonApi "app-stage-id").2 =
      [.updateProject "proj-1" "kept-name"] ∧
    (warpDeviceProfileHandler .create {} none false
        { sampleWarpApi with createResult := .ok { id := "pol-9" } }
        "app-stage-id" 7).2 =
      [.createPolicy (buildRequestBody {} "app-stage-id")] ∧
    (warpDeviceProfileHandler .update {}
        (some (warpProfileOut {} "kept-name" "pol-1" 1 1)) false sampleWarpApi
        "app-stage-id" 7).2 =
      [.patchPolicy "pol-1" (buildRequestBody {} "kept-name")] :=
  ⟨claim_C8_physical_name_resolution.1 _ _,
    claim_C8_physical_name_resolution.2.1 _,
    claim_C8_physical_name_resolution.2.2.1 _ _ _ _ rfl rfl,
    claim_C8_physical_name_resolution.2.2.2.1 _ _ _ _ _ rfl,
    claim_C8_physical_name_resolution.2.2.2.2.1 _ _ _ _ _ _ rfl rfl rfl,
    claim_C8_physical_name_resolution.2.2.2.2.2 _ _ _ _ _ _ rfl rfl rfl rfl⟩

/-- C4 counterexample: the WarpDeviceProfile in-place update PATCHes a body
that includes the immutable `name` field, so the update is not "a PATCH of
only the mutable fields"; that `name` is the immutable prop is witnessed by
the replace signal when it differs (third conjunct). -/
theorem claim_C4_counterexample :
    (warpDeviceProfileHandler .update
        { name := some "profile-a", description := some "d" }
        (some (warpProfileOut { name := some "profile-a", description := some "d" }
          "profile-a" "pol-1" 100 100))
        false sampleWarpApi "phys" 200).2 =
      [.patchPolicy "pol-1"
        (buildRequestBody { name := some "profile-a", description := some "d" }
          "profile-a")] ∧
    "name" ∈ (buildRequestBody { name := some "profile-a", description := some "d" }
        "profile-a").map Prod.fst ∧
    (warpDeviceProfileHandler .update
        { name := some "profile-b", description := some "d" }
        (some (warpProfileOut { name := some "profile-a", description := some "d" }
          "profile-a" "pol-1" 100 100))
        false sampleWarpApi "phys" 200).1 = .ok .replace := by
  refine ⟨rfl, ?_, rfl⟩
  simp [buildRequestBody, jfield]

/-- C4 (amended): TunnelRoute and WarpDeviceProfile invoke the
replace-mutator exactly when an immutable prop differs from the previous
output (network or tunnel id; name); when nothing immutable changed,
TunnelRoute reconciles in place via a PATCH of only the mutable fields
(comment, virtual network id) while WarpDeviceProfile PATCHes the full prop
set (its unchanged name included), both keeping the previous physical id;
a forced replacement (spec §4.3: delete old, create new) yields the freshly
created object's id, which differs from the old one whenever the provider
assigns a fresh id. -/
theorem claim_C4_amended_replace_on_immutable_change :
    (∀ (props : TunnelRouteProps) (prev : TunnelRoute) (api : TunnelRouteApi)
        (s : Bool),
      props.routeId = none → prev.network.isEmpty = false →
      prev.tunnelId.isEmpty = false →
      ((tunnelRouteHandler .update props (some prev) s api).1 = .ok .replace ↔
        (props.network ≠ prev.network ∨ resolveTunnelId props.tunnel ≠ prev.tunnelId))) ∧
    (∀ (props : TunnelRouteProps) (prev : TunnelRoute) (api : TunnelRouteApi)
        (s : Bool) (rt : CloudflareRoute),
      props.routeId = none → prev.id.isEmpty = false →
      props.network = prev.network →
      resolveTunnelId props.tunnel = prev.tunnelId →
      api.update prev.id { comment := props.comment, virtual_network_id := props.virtualNetworkId } = .ok rt →
      rt.id = prev.id →
      tunnelRouteHandler .update props (some prev) s api =
        (.ok (.ok (TunnelRoute.ofRoute rt)),
          [.patchRoute prev.id { comment := props.comment, virtual_network_id := props.virtualNetworkId }]) ∧
      (TunnelRoute.ofRoute rt).id = prev.id) ∧
    (∀ (props : WarpDeviceProfileProps) (prev : WarpDeviceProfile) (api : WarpApi)
        (s : Bool) (physical : String) (now : Nat),
      ((warpDeviceProfileHandler .update props (some prev) s api physical now).1 =
          .ok .replace ↔
        resolvePhysicalName props.name (some prev.name) physical ≠ prev.name)) ∧
    (∀ (props : WarpDeviceProfileProps) (prev : WarpDeviceProfile) (api : WarpApi)
        (s : Bool) (physical : String) (now : Nat),
      props.name = none → prev.policyId.isEmpty = false →
      statusOk api.updateStatus = true → props.splitTunnel = none →
      warpDeviceProfileHandler .update props (some prev) s api physical now =
        (.ok (.ok (warpProfileOut props prev.name prev.policyId prev.createdAt now)),
          [.patchPolicy prev.policyId (buildRequestBody props prev.name)]) ∧
      (warpProfileOut props prev.name prev.policyId prev.createdAt now).policyId =
        prev.policyId) ∧
    (∀ (props : TunnelRouteProps) (prev : TunnelRoute) (api : TunnelRouteApi)
        (s : Bool) (newRoute : CloudflareRoute),
      props.routeId = none → props.delete = none → prev.id.isEmpty = false →
      api.deleteStatus prev.id = 404 → api.createResult = .ok newRoute →
      newRoute.id ≠ prev.id →
      forcedReplaceTunnelRoute props prev s api =
        (.ok (.ok (TunnelRoute.ofRoute newRoute)),
          [.deleteRoute prev.id,
            .createRoute props.network (resolveTunnelId props.tunnel)
              props.comment props.virtualNetworkId]) ∧
      (TunnelRoute.ofRoute newRoute).id ≠ prev.id) := by
  refine ⟨?_, ?_, ?_, ?_, ?_⟩
  · intro props prev api s hrid hn ht
    by_cases hnet : prev.network = props.network
    · by_cases htun : prev.tunnelId = resolveTunnelId props.tunnel
      · have hch1 : tunnelRouteNetworkChanged (some prev) props.network = false := by
          simp [tunnelRouteNetworkChanged, hnet]
        have hch2 : tunnelRouteTunnelChanged (some prev) (resolveTunnelId props.tunnel) =
            false := by
          simp [tunnelRouteTunnelChanged, htun]
        cases hid : prev.id.isEmpty with
        | true =>
          have heq : tunnelRouteHandler .update props (some prev) s api =
              tunnelRouteCreateStep props (effectiveAdoptOr props.adopt s) api := by
            simp [tunnelRouteHandler, hrid, hch1, hch2, strOr, strTruthy, hid]
          rw [heq]
          constructor
          · intro h
            exact absurd h (tunnelRouteCreateStep_fst_ne_replace _ _ _)
          · rintro (h | h)
            · exact absurd hnet.symm h
            · exact absurd htun.symm h
        | false =>
          rcases hu : api.update prev.id { comment := props.comment, virtual_network_id := props.virtualNetworkId } with _ | _ <;>
            simp [tunnelRouteHandler, hrid, hch1, hch2, strOr, strTruthy, hid, hu,
              hnet, htun]
      · have hch1 : tunnelRouteNetworkChanged (some prev) props.network = false := by
          simp [tunnelRouteNetworkChanged, hnet]
        have hch2 : tunnelRouteTunnelChanged (some prev) (resolveTunnelId props.tunnel) =
            true := by
          simp [tunnelRouteTunnelChanged, ht, htun]
        simp [tunnelRouteHandler, hrid, hch1, hch2]
        exact Or.inr (fun h => htun h.symm)
    · have hch1 : tunnelRouteNetworkChanged (some prev) props.network = true := by
        simp [tunnelRouteNetworkChanged, hn, hnet]
      simp [tunnelRouteHandler, hrid, hch1]
      exact Or.inl (fun h => hnet h.symm)
  · intro props prev api s rt hrid hpid hnet htun hu hid
    have hch1 : tunnelRouteNetworkChanged (some prev) props.network = false := by
      simp [tunnelRouteNetworkChanged, hnet]
    have hch2 : tunnelRouteTunnelChanged (some prev) (resolveTunnelId props.tunnel) =
        false := by
      simp [tunnelRouteTunnelChanged, htun]
    refine ⟨?_, by simp [TunnelRoute.ofRoute, hid]⟩
    simp [tunnelRouteHandler, hrid, strOr, strTruthy, hpid, hch1, hch2, hu]
  · intro props prev api s physical now
    by_cases hname : resolvePhysicalName props.name (some prev.name) physical = prev.name
    · have heq : warpDeviceProfileHandler .update props (some prev) s api physical now =
          warpReconcile .update props (some prev) (effectiveAdoptOr props.adopt s)
            (resolvePhysicalName props.name (some prev.name) physical) api now := by
        simp [warpDeviceProfileHandler, hname]
      rw [heq]
      constructor
      · intro h
        exact absurd h (warpReconcile_fst_ne_replace _ _ _ _ _ _ _)
      · intro h
        exact absurd hname h
    · have hrep : (some prev.name !=
          some (resolvePhysicalName props.name (some prev.name) physical)) = true := by
        simp only [bne_iff_ne, ne_eq, Option.some.injEq]
        exact fun h => hname h.symm
      have heq : warpDeviceProfileHandler .update props (some prev) s api physical now =
          (.ok .replace, []) := by
        simp [warpDeviceProfileHandler, hrep]
      rw [heq]
      exact ⟨fun _ => hname, fun _ => rfl⟩
  · intro props prev api s physical now hn hpid hok hst
    refine ⟨?_, rfl⟩
    simp [warpDeviceProfileHandler, warpReconcile, hn, resolvePhysicalName, hpid, hok,
      warpSplitTunnelStep, hst]
  · intro props prev api s newRoute hrid hdel hpid h404 hc hfresh
    refine ⟨?_, by simpa [TunnelRoute.ofRoute] using hfresh⟩
    have hdelete : tunnelRouteHandler .delete props (some prev) s api =
        (.ok .destroyed, [.deleteRoute prev.id]) := by
      simp [tunnelRouteHandler, hrid, strOr, strTruthy, hpid, hdel, deleteRoute,
        h404, statusOk]
    have hcreate : tunnelRouteHandler .create props none s api =
        (.ok (.ok (TunnelRoute.ofRoute newRoute)),
          [.createRoute props.network (resolveTunnelId props.tunnel)
            props.comment props.virtualNetworkId]) := by
      simp [tunnelRouteHandler, tunnelRouteCreateStep, hc]
    simp [forcedReplaceTunnelRoute, hdelete, hcreate]

/-- C1 counterexample: a RateCard create with effective adopt true but no
`lookupKey` re-raises the create conflict unchanged and performs no lookup
(its trace holds only the create request), although an adoptable card sits
in the remote table — the claimed look-up-and-return (or lookup-failure
error) does not happen. -/
theorem claim_C1_counterexample :
    rateCardHandler .create
        { displayName := "Cards", currency := "usd", adopt := some true }
        none false sampleRateCardApi =
      (.error { message := "conflict", status := some 409 },
        [.createRateCard { display_name := "Cards", currency := "usd", service_interval := "month", service_interval_count := 1, tax_behavior := "exclusive" }]) ∧
    sampleRateCardApi.listResult.map (·.id) = ["rc-existing"] :=
  ⟨rfl, rfl⟩

/-- C1 (amended): on a create conflict with effective adopt true,
TunnelRoute and WarpDeviceProfile look the existing object up by natural
key (network+tunnel; profile name) and return it as though freshly created,
raising a "Failed to find ..." error when the lookup comes back empty;
RateCard does so only when `props.lookupKey` is set (otherwise the conflict
is re-raised unchanged without a lookup), and when its lookup finds nothing
it re-raises the original conflict error.  With effective adopt false every
handler re-raises the conflict unchanged. -/
theorem claim_C1_amended_adoption_on_conflict :
    (∀ (props : TunnelRouteProps) (api : TunnelRouteApi) (e : ApiError)
        (r : CloudflareRoute) (s : Bool),
      props.comment = none → props.virtualNetworkId = none → props.routeId = none →
      api.createResult = .error e → isTunnelRouteConflict e = true →
      effectiveAdoptOr props.adopt s = true →
      (api.routes.find? fun rt =>
        rt.network == props.network && rt.tunnel_id == resolveTunnelId props.tunnel) =
        some r →
      tunnelRouteHandler .create props none s api =
        (.ok (.ok (TunnelRoute.ofRoute r)),
          [.createRoute props.network (resolveTunnelId props.tunnel) none none,
            .listRoutes]) ∧
      (TunnelRoute.ofRoute r).id = r.id) ∧
    (∀ (props : TunnelRouteProps) (api : TunnelRouteApi) (e : ApiError) (s : Bool),
      props.routeId = none →
      api.createResult = .error e → isTunnelRouteConflict e = true →
      effectiveAdoptOr props.adopt s = true →
      (api.routes.find? fun rt =>
        rt.network == props.network && rt.tunnel_id == resolveTunnelId props.tunnel) =
        none →
      tunnelRouteHandler .create props none s api =
        (.error { message := "Failed to find existing route for network '" ++
            props.network ++ "' and tunnel '" ++ resolveTunnelId props.tunnel ++
            "' for adoption" },
          [.createRoute props.network (resolveTunnelId props.tunnel)
            props.comment props.virtualNetworkId, .listRoutes])) ∧
    (∀ (props : TunnelRouteProps) (api : TunnelRouteApi) (e : ApiError) (s : Bool),
      props.routeId = none →
      api.createResult = .error e → effectiveAdoptOr props.adopt s = false →
      tunnelRouteHandler .create props none s api =
        (.error e,
          [.createRoute props.network (resolveTunnelId props.tunnel)
            props.comment props.virtualNetworkId])) ∧
    (∀ (props : WarpDeviceProfileProps) (api : WarpApi) (e : ApiError)
        (pid : String) (s : Bool) (physical : String) (now : Nat),
      props.splitTunnel = none →
      api.createResult = .error e → isWarpProfileConflict e = true →
      effectiveAdoptOr props.adopt s = true →
      findPolicyByName api.policies (resolvePhysicalName props.name none physical) =
        some pid →
      warpDeviceProfileHandler .create props none s api physical now =
        (.ok (.ok (warpProfileOut props (resolvePhysicalName props.name none physical)
            pid now now)),
          [.createPolicy (buildRequestBody props
              (resolvePhysicalName props.name none physical)), .listPolicies]) ∧
      (warpProfileOut props (resolvePhysicalName props.name none physical)
          pid now now).policyId = pid) ∧
    (∀ (props : WarpDeviceProfileProps) (api : WarpApi) (e : ApiError) (s : Bool)
        (physical : String) (now : Nat),
      api.createResult = .error e → isWarpProfileConflict e = true →
      effectiveAdoptOr props.adopt s = true →
      findPolicyByName api.policies (resolvePhysicalName props.name none physical) =
        none →
      warpDeviceProfileHandler .create props none s api physical now =
        (.error { message := "Failed to find existing WARP device profile '" ++
            resolvePhysicalName props.name none physical ++ "' for adoption" },
          [.createPolicy (buildRequestBody props
              (resolvePhysicalName props.name none physical)), .listPolicies])) ∧
    (∀ (props : WarpDeviceProfileProps) (api : WarpApi) (e : ApiError) (s : Bool)
        (physical : String) (now : Nat),
      api.createResult = .error e → effectiveAdoptOr props.adopt s = false →
      warpDeviceProfileHandler .create props none s api physical now =
        (.error e,
          [.createPolicy (buildRequestBody props
              (resolvePhysicalName props.name none physical))])) ∧
    (∀ (props : RateCardProps) (api : StripeRateCardApi) (e : StripeError)
        (rc rcu : V2RateCard) (s : Bool),
      strTruthy props.lookupKey = true →
      api.createResult = .error e → isStripeV2ConflictError e = true →
      effectiveAdoptOr props.adopt s = true →
      (api.listResult.find? fun c => c.lookup_key == props.lookupKey) = some rc →
      api.update rc.id { display_name := props.displayName, metadata := props.metadata } = .ok rcu →
      rcu.id = rc.id →
      rateCardHandler .create props none s api =
        (.ok (.ok (mapV2RateCardToOutput rcu)),
          [.createRateCard (rateCardCreateParams props), .listRateCards,
            .updateRateCard rc.id { display_name := props.displayName, metadata := props.metadata }]) ∧
      (mapV2RateCardToOutput rcu).id = rc.id) ∧
    (∀ (props : RateCardProps) (api : StripeRateCardApi) (e : StripeError) (s : Bool),
      strTruthy props.lookupKey = true →
      api.createResult = .error e → isStripeV2ConflictError e = true →
      effectiveAdoptOr props.adopt s = true →
      (api.listResult.find? fun c => c.lookup_key == props.lookupKey) = none →
      rateCardHandler .create props none s api =
        (.error e, [.createRateCard (rateCardCreateParams props), .listRateCards])) ∧
    (∀ (props : RateCardProps) (api : StripeRateCardApi) (e : StripeError) (s : Bool),
      api.createResult = .error e →
      (effectiveAdoptOr props.adopt s = false ∨ strTruthy props.lookupKey = false) →
      rateCardHandler .create props none s api =
        (.error e, [.createRateCard (rateCardCreateParams props)])) := by
  refine ⟨?_, ?_, ?_, ?_, ?_, ?_, ?_, ?_, ?_⟩
  · intro props api e r s hc hv hrid hcr hconf hadopt hfind
    refine ⟨?_, rfl⟩
    simp [tunnelRouteHandler, tunnelRouteCreateStep, hrid, hcr, hconf, hadopt,
      findRouteOnServer_eq, hfind, hc, hv]
  · intro props api e s hrid hcr hconf hadopt hfind
    simp [tunnelRouteHandler, tunnelRouteCreateStep, hrid, hcr, hconf, hadopt,
      findRouteOnServer_eq, hfind]
  · intro props api e s hrid hcr hadopt
    simp [tunnelRouteHandler, tunnelRouteCreateStep, hrid, hcr, hadopt]
  · intro props api e pid s physical now hst hcr hconf hadopt hfind
    refine ⟨?_, rfl⟩
    simp [warpDeviceProfileHandler, warpReconcile, hcr, hconf, hadopt, hfind,
      warpSplitTunnelStep, hst]
  · intro props api e s physical now hcr hconf hadopt hfind
    simp [warpDeviceProfileHandler, warpReconcile, hcr, hconf, hadopt, hfind]
  · intro props api e s physical now hcr hadopt
    simp [warpDeviceProfileHandler, warpReconcile, hcr, hadopt]
  · intro props api e rc rcu s hlk hcr hconf hadopt hfind hupd hid
    refine ⟨?_, by simp [mapV2RateCardToOutput, hid]⟩
    simp [rateCardHandler, hlk, hcr, hconf, hadopt, hfind, hupd]
  · intro props api e s hlk hcr hconf hadopt hfind
    simp [rateCardHandler, hlk, hcr, hconf, hadopt, hfind]
  · intro props api e s hcr hor
    rcases hor with h | h <;> simp [rateCardHandler, hcr, h]

/-- Witness for C1 (amended) at concrete inputs. -/
theorem claim_C1_witness :
    tunnelRouteHandler .create
        { network := "10.0.0.0/8", tunnel := .id "tun-1", adopt := some true }
        none false sampleTRApi =
      (.ok (.ok (TunnelRoute.ofRoute
          { id := "route-1", network := "10.0.0.0/8", tunnel_id := "tun-1" })),
        [.createRoute "10.0.0.0/8" "tun-1" none none, .listRoutes]) ∧
    tunnelRouteHandler .create
        { network := "10.9.9.9/32", tunnel := .id "tun-1", adopt := some true }
        none false sampleTRApi =
      (.error { message := "Failed to find existing route for network '" ++
          "10.9.9.9/32" ++ "' and tunnel '" ++ "tun-1" ++ "' for adoption" },
        [.createRoute "10.9.9.9/32" "tun-1" none none, .listRoutes]) ∧
    tunnelRouteHandler .create
        { network := "10.0.0.0/8", tunnel := .id "tun-1", adopt := some false }
        none false sampleTRApi =
      (.error { message := "route already exists", status := some 409 },
        [.createRoute "10.0.0.0/8" "tun-1" none none]) ∧
    warpDeviceProfileHandler .create { adopt := some true } none false sampleWarpApi
        "profile-a" 9 =
      (.ok (.ok (warpProfileOut { adopt := some true } "profile-a" "pol-1" 9 9)),
        [.createPolicy (buildRequestBody { adopt := some true } "profile-a"),
          .listPolicies]) ∧
    warpDeviceProfileHandler .create { adopt := some true } none false sampleWarpApi
        "missing-profile" 9 =
      (.error { message := "Failed to find existing WARP device profile '" ++
          "missing-profile" ++ "' for adoption" },
        [.createPolicy (buildRequestBody { adopt := some true } "missing-profile"),
          .listPolicies]) ∧
    warpDeviceProfileHandler .create { adopt := some false } none false sampleWarpApi
        "profile-a" 9 =
      (.error { message := "profile already exists", status := some 409 },
        [.createPolicy (buildRequestBody { adopt := some false } "profile-a")]) ∧
    rateCardHandler .create
        { displayName := "Cards", currency := "usd", lookupKey := some "lk",
          adopt := some true }
        none false sampleRateCardApi =
      (.ok (.ok (mapV2RateCardToOutput
          { id := "rc-existing", display_name := "Cards", currency := "usd",
            service_interval := "month", service_interval_count := 1,
            tax_behavior := "exclusive", lookup_key := some "lk" })),
        [.createRateCard (rateCardCreateParams
            { displayName := "Cards", currency := "usd", lookupKey := some "lk",
              adopt := some true }), .listRateCards,
          .updateRateCard "rc-existing" { display_name := "Cards", metadata := none }]) ∧
    rateCardHandler .create
        { displayName := "Cards", currency := "usd", lookupKey := some "other",
          adopt := some true }
        none false sampleRateCardApi =
      (.error { message := "conflict", status := some 409 },
        [.createRateCard (rateCardCreateParams
            { displayName := "Cards", currency := "usd", lookupKey := some "other",
              adopt := some true }), .listRateCards]) ∧
    rateCardHandler .create
        { displayName := "Cards", currency := "usd", lookupKey := some "lk",
          adopt := some false }
        none false sampleRateCardApi =
      (.error { message := "conflict", status := some 409 },
        [.createRateCard (rateCardCreateParams
            { displayName := "Cards", currency := "usd", lookupKey := some "lk",
              adopt := some false })]) :=
  ⟨(claim_C1_amended_adoption_on_conflict.1
      { network := "10.0.0.0/8", tunnel := .id "tun-1", adopt := some true }
      sampleTRApi { message := "route already exists", status := some 409 }
      { id := "route-1", network := "10.0.0.0/8", tunnel_id := "tun-1" } false
      rfl rfl rfl rfl (by decide) rfl (by decide)).1,
    claim_C1_amended_adoption_on_conflict.2.1
      { network := "10.9.9.9/32", tunnel := .id "tun-1", adopt := some true }
      sampleTRApi { message := "route already exists", status := some 409 } false
      rfl rfl (by decide) rfl (by decide),
    claim_C1_amended_adoption_on_conflict.2.2.1
      { network := "10.0.0.0/8", tunnel := .id "tun-1", adopt := some false }
      sampleTRApi { message := "route already exists", status := some 409 } false
      rfl rfl rfl,
    (claim_C1_amended_adoption_on_conflict.2.2.2.1 { adopt := some true }
      sampleWarpApi { message := "profile already exists", status := some 409 }
      "pol-1" false "profile-a" 9 rfl rfl (by decide) rfl (by decide)).1,
    claim_C1_amended_adoption_on_conflict.2.2.2.2.1 { adopt := some true }
      sampleWarpApi { message := "profile already exists", status := some 409 }
      false "missing-profile" 9 rfl (by decide) rfl (by decide),
    claim_C1_amended_adoption_on_conflict.2.2.2.2.2.1 { adopt := some false }
      sampleWarpApi { message := "profile already exists", status := some 409 }
      false "profile-a" 9 rfl rfl,
    (claim_C1_amended_adoption_on_conflict.2.2.2.2.2.2.1
      { displayName := "Cards", currency := "usd", lookupKey := some "lk",
        adopt := some true }
      sampleRateCardApi { message := "conflict", status := some 409 }
      { id := "rc-existing", display_name := "Cards", currency := "usd",
        service_interval := "month", service_interval_count := 1,
        tax_behavior := "exclusive", lookup_key := some "lk" }
      { id := "rc-existing", display_name := "Cards", currency := "usd",
        service_interval := "month", service_interval_count := 1,
        tax_behavior := "exclusive", lookup_key := some "lk" }
      false (by decide) rfl (by decide) rfl (by decide) rfl rfl).1,
    claim_C1_amended_adoption_on_conflict.2.2.2.2.2.2.2.1
      { displayName := "Cards", currency := "usd", lookupKey := some "other",
        adopt := some true }
      sampleRateCardApi { message := "conflict", status := some 409 } false
      (by decide) rfl (by decide) rfl (by decide),
    claim_C1_amended_adoption_on_conflict.2.2.2.2.2.2.2.2
      { displayName := "Cards", currency := "usd", lookupKey := some "lk",
        adopt := some false }
      sampleRateCardApi { message := "conflict", status := some 409 } false
      rfl (Or.inl rfl)⟩

/-- Witness for C4 (amended) at concrete inputs. -/
theorem claim_C4_witness :
    (tunnelRouteHandler .update
        { network := "10.1.0.0/16", tunnel := .id "tun-1" }
        (some { id := "route-1", network := "10.0.0.0/8", tunnelId := "tun-1",
                comment := none, virtualNetworkId := none, createdAt := "",
                deletedAt := none })
        false sampleTRApi).1 = .ok .replace ∧
    tunnelRouteHandler .update
        { network := "10.0.0.0/8", tunnel := .id "tun-1", comment := some "c" }
        (some { id := "route-1", network := "10.0.0.0/8", tunnelId := "tun-1",
                comment := none, virtualNetworkId := none, createdAt := "",
                deletedAt := none })
        false sampleTRApi =
      (.ok (.ok (TunnelRoute.ofRoute
          { id := "route-1", network := "10.0.0.0/8", tunnel_id := "tun-1" })),
        [.patchRoute "route-1" { comment := some "c", virtual_network_id := none }]) ∧
    (warpDeviceProfileHandler .update { name := some "profile-b" }
        (some (warpProfileOut {} "profile-a" "pol-1" 1 1)) false sampleWarpApi
        "phys" 5).1 = .ok .replace ∧
    warpDeviceProfileHandler .update {}
        (some (warpProfileOut {} "profile-a" "pol-1" 1 1)) false sampleWarpApi
        "phys" 5 =
      (.ok (.ok (warpProfileOut {} "profile-a" "pol-1" 1 5)),
        [.patchPolicy "pol-1" (buildRequestBody {} "profile-a")]) ∧
    forcedReplaceTunnelRoute { network := "10.1.0.0/16", tunnel := .id "tun-1" }
        { id := "route-1", network := "10.0.0.0/8", tunnelId := "tun-1",
          comment := none, virtualNetworkId := none, createdAt := "",
          deletedAt := none }
        false
        { sampleTRApi with createResult := .ok { id := "route-2", network := "10.1.0.0/16", tunnel_id := "tun-1" } } =
      (.ok (.ok (TunnelRoute.ofRoute
          { id := "route-2", network := "10.1.0.0/16", tunnel_id := "tun-1" })),
        [.deleteRoute "route-1", .createRoute "10.1.0.0/16" "tun-1" none none]) :=
  ⟨(claim_C4_amended_replace_on_immutable_change.1 _ _ sampleTRApi false
      rfl (by decide) (by decide)).mpr (Or.inl (by decide)),
    (claim_C4_amended_replace_on_immutable_change.2.1
      { network := "10.0.0.0/8", tunnel := .id "tun-1", comment := some "c" }
      { id := "route-1", network := "10.0.0.0/8", tunnelId := "tun-1",
        comment := none, virtualNetworkId := none, createdAt := "", deletedAt := none }
      sampleTRApi false
      { id := "route-1", network := "10.0.0.0/8", tunnel_id := "tun-1" }
      rfl rfl rfl rfl rfl rfl).1,
    (claim_C4_amended_replace_on_immutable_change.2.2.1 _ _ sampleWarpApi false
      "phys" 5).mpr (by decide),
    (claim_C4_amended_replace_on_immutable_change.2.2.2.1 _ _ sampleWarpApi false
      "phys" 5 rfl (by decide) rfl rfl).1,
    (claim_C4_amended_replace_on_immutable_change.2.2.2.2
      { network := "10.1.0.0/16", tunnel := .id "tun-1" }
      { id := "route-1", network := "10.0.0.0/8", tunnelId := "tun-1",
        comment := none, virtualNetworkId := none, createdAt := "", deletedAt := none }
      { sampleTRApi with createResult := .ok { id := "route-2", network := "10.1.0.0/16", tunnel_id := "tun-1" } }
      false
      { id := "route-2", network := "10.1.0.0/16", tunnel_id := "tun-1" }
      rfl rfl rfl rfl rfl (by decide)).1⟩

end Alchemy
